import Mathlib

/-!
Verification of the bonding-curve pricing and graduation engine.

The Rust sources are shallowly embedded: `u128` becomes `Nat` with explicit
`% 2^128` where an unchecked operation can wrap, `checked_mul`/`checked_add`
become guarded `Except` computations, storage becomes an explicit record that
every state-mutating operation threads, and the external AMM collaborator
becomes a record of oracle functions supplying the results of its calls.
-/

namespace BondingCurveAlkanes

/-- Size of the `u128` value space: unchecked arithmetic wraps modulo this. -/
def U128 : Nat := 2 ^ 128

/-- Fixed-point scale constant, 9 decimal places (`PRECISION` in the source). -/
def PRECISION : Nat := 1000000000

/-- Basis-points scale, 10000 = 100%. -/
def BASIS_POINTS : Nat := 10000

/-- Price ceiling `u128::MAX / 1_000_000` from the source. -/
def MAX_PRICE : Nat := (U128 - 1) / 1000000

/-- Model of `u128::checked_mul` composed with `overflow_error`. -/
def chkMul (a b : Nat) : Except String Nat :=
  if a * b < U128 then .ok (a * b) else .error "overflow"

/-- Model of `u128::checked_add` composed with `overflow_error`. -/
def chkAdd (a b : Nat) : Except String Nat :=
  if a + b < U128 then .ok (a + b) else .error "overflow"

instance {α β : Type} [DecidableEq α] [DecidableEq β] : DecidableEq (Except α β) :=
  fun x y =>
    match x, y with
    | .ok a, .ok b =>
        if h : a = b then .isTrue (by rw [h])
        else .isFalse (fun hh => h (Except.ok.injEq .. ▸ hh))
    | .error a, .error b =>
        if h : a = b then .isTrue (by rw [h])
        else .isFalse (fun hh => h (Except.error.injEq .. ▸ hh))
    | .ok _, .error _ => .isFalse (fun hh => Except.noConfusion hh)
    | .error _, .ok _ => .isFalse (fun hh => Except.noConfusion hh)

/-- Base token discriminator (`BaseToken` in the source). -/
inductive BaseToken where
  | BUSD
  | FrBtc
deriving DecidableEq

/-- Alkane contract identifier. -/
structure AlkaneId where
  block : Nat
  tx : Nat
deriving DecidableEq

/-- Fixed external account bound to each base currency. -/
def BaseToken.alkane_id : BaseToken → AlkaneId
  | .BUSD => ⟨2, 56801⟩
  | .FrBtc => ⟨32, 0⟩

/-- Curve parameters (`CurveParams` in `lib.rs`). -/
structure CurveParams where
  base_price : Nat
  growth_rate : Nat
  graduation_threshold : Nat
  base_token : BaseToken
  max_supply : Nat
deriving DecidableEq

/-- The `Default` instance for `CurveParams` in `lib.rs`. -/
def CurveParams.default : CurveParams :=
  { base_price := 1000000
    growth_rate := 1500
    graduation_threshold := 10000000000000
    base_token := .BUSD
    max_supply := 1000000000000000 }

namespace CurveCalculator

/-- One multiply-and-rescale step of the fixed-point loop: a checked `u128`
multiplication followed by truncating division by `PRECISION`. -/
def stepMul (a b : Nat) : Except String Nat :=
  if a * b < U128 then .ok (a * b / PRECISION) else .error "overflow"

/-- The binary-exponentiation loop body of `fixed_point_power`.  `fuel` bounds
the number of iterations; the caller passes the exponent itself, which always
suffices because the loop runs at most `log2 exponent + 1` times. -/
def powLoop : Nat → Nat → Nat → Nat → Except String Nat
  | 0, res, _, e => if e = 0 then .ok res else .error "fuel"
  | fuel + 1, res, bp, e =>
    if e = 0 then .ok res
    else
      match (if e % 2 = 1 then stepMul res bp else .ok res),
            (if 1 < e then stepMul bp bp else .ok bp) with
      | .ok r, .ok b =>
          if MAX_PRICE < r ∨ MAX_PRICE < b then .ok MAX_PRICE
          else powLoop fuel r b (e / 2)
      | .error s, _ => .error s
      | .ok _, .error s => .error s

/-- `CurveCalculator::fixed_point_power`: computes
`(base/denominator)^exponent` scaled by `PRECISION` using binary
exponentiation with truncating division, clamped at `MAX_PRICE`.  The initial
`base * PRECISION / denominator` is an unchecked multiply (wraps) and a plain
division (a zero denominator panics, modelled as an error). -/
def fixed_point_power (base exponent denominator : Nat) : Except String Nat :=
  if exponent = 0 then .ok PRECISION
  else if denominator = 0 then .error "panic: division by zero"
  else powLoop exponent PRECISION (base * PRECISION % U128 / denominator) exponent

/-- `CurveCalculator::price_at_supply_fixed_point`. -/
def price_at_supply_fixed_point (supply : Nat) (params : CurveParams) :
    Except String Nat :=
  if supply = 0 then .ok params.base_price
  else
    match fixed_point_power (BASIS_POINTS + params.growth_rate) supply BASIS_POINTS with
    | .error s => .error s
    | .ok m =>
        if params.base_price * m < U128 then
          .ok (min (params.base_price * m / PRECISION) MAX_PRICE)
        else .error "Overflow in price calculation"

/-- `CurveCalculator::price_at_supply` (a direct alias in the source). -/
def price_at_supply (supply : Nat) (params : CurveParams) : Except String Nat :=
  price_at_supply_fixed_point supply params

/-- Shared loop of `calculate_precise_buy_cost` / `calculate_precise_sell_return`:
sum the unit price at `from + i` for `i < count` with checked additions. -/
def sum_prices (params : CurveParams) : Nat → Nat → Nat → Except String Nat
  | _, 0, acc => .ok acc
  | start, count + 1, acc =>
    match price_at_supply_fixed_point start params with
    | .error s => .error s
    | .ok p =>
        match chkAdd acc p with
        | .error s => .error s
        | .ok acc2 => sum_prices params (start + 1) count acc2

/-- `CurveCalculator::calculate_precise_sell_return`. -/
def calculate_precise_sell_return (new_supply tokens_to_sell : Nat)
    (params : CurveParams) : Except String Nat :=
  sum_prices params new_supply tokens_to_sell 0

/-- `CurveCalculator::calculate_sell_price`: theoretical return over
`[current_supply - tokens_to_sell, current_supply)` by exact summation or the
trapezoidal rule, then a 2% discount applied by an unchecked `* 98 / 100`. -/
def calculate_sell_price (current_supply tokens_to_sell : Nat)
    (params : CurveParams) : Except String Nat :=
  if tokens_to_sell = 0 then .ok 0
  else if current_supply < tokens_to_sell then
    .error "Cannot sell more tokens than current supply"
  else
    let new_supply := current_supply - tokens_to_sell
    let theoretical :=
      if tokens_to_sell ≤ 100 ∨ new_supply < 1000 then
        calculate_precise_sell_return new_supply tokens_to_sell params
      else
        match price_at_supply_fixed_point new_supply params,
              price_at_supply_fixed_point (current_supply - 1) params with
        | .ok sp, .ok ep => chkMul ((sp + ep) % U128 / 2) tokens_to_sell
        | .error s, _ => .error s
        | .ok _, .error s => .error s
    match theoretical with
    | .error s => .error s
    | .ok t => .ok (t * 98 % U128 / 100)

/-- The market-cap expression of `check_graduation_criteria`: a saturating
`u128` multiplication of supply by the unit price (an erroring price
computation contributes `0` via `unwrap_or(0)`), scaled down by `PRECISION`. -/
def market_cap (current_supply : Nat) (params : CurveParams) : Nat :=
  min (current_supply * ((price_at_supply_fixed_point current_supply params).toOption.getD 0))
    (U128 - 1) / PRECISION

/-- `CurveCalculator::check_graduation_criteria`. -/
def check_graduation_criteria (current_supply base_reserves : Nat)
    (params : CurveParams) : Bool :=
  let mc := market_cap current_supply params
  if params.graduation_threshold ≤ mc then true
  else if params.graduation_threshold / 2 ≤ base_reserves then true
  else if mc * 30 / 100 ≤ base_reserves ∧ params.max_supply / 20 ≤ current_supply then true
  else false

/-- `CurveCalculator::get_curve_params`: an empty storage slot yields the
default parameters; a populated slot deserializes to its contents. -/
def get_curve_params (slot : Option CurveParams) : Except String CurveParams :=
  match slot with
  | none => .ok CurveParams.default
  | some p => .ok p

/-- Reference computation named by the specification for exponentiation
correctness (follows the spec's words, for comparison with
`fixed_point_power`): scale the base once, then multiply it into an
accumulator `exponent` times with truncating division by `PRECISION` at each
step. -/
def direct_power_reference (base exponent denominator : Nat) : Nat :=
  Nat.rec PRECISION (fun _ acc => acc * (base * PRECISION / denominator) / PRECISION) exponent

end CurveCalculator

/-- Optimized curve parameters (`OptimizedCurveParams` in the source). -/
structure OptimizedCurveParams where
  base_price : Nat
  growth_rate : Nat
  graduation_threshold : Nat
  base_token : BaseToken
  max_supply : Nat
  price_cache_interval : Nat
deriving DecidableEq

/-- The `Default` instance for `OptimizedCurveParams`. -/
def OptimizedCurveParams.default : OptimizedCurveParams :=
  { base_price := 1000000
    growth_rate := 1500
    graduation_threshold := 10000000000000
    base_token := .BUSD
    max_supply := 1000000000000000
    price_cache_interval := 1000 }

/-- Host call context: the executing contract, its caller and the incoming
alkane transfers of the call. -/
structure Ctx where
  myself : AlkaneId
  caller : AlkaneId
  incoming : List (AlkaneId × Nat) := []
  witness_payload : List Nat := []
deriving DecidableEq

namespace Optimized

/-- Storage of one `OptimizedBondingCurve` instance: each field is one
keyword-addressed slot; the price cache maps a bucket key to the stored
16-byte price (newest entry first, lookup takes the first match). -/
structure OptStorage where
  initialized : Bool := false
  name : Option (Nat × Nat) := none
  symbol : Option Nat := none
  totalsupply : Nat := 0
  curve_params : Option OptimizedCurveParams := none
  base_reserves : Nat := 0
  graduated : Nat := 0
  price_cache : List (Nat × Nat) := []
  amm_pool_address : Nat := 0
  data : Option (List Nat) := none
deriving DecidableEq

/-- Lookup in the association-list model of the keyed price-cache pointer. -/
def cacheGet : List (Nat × Nat) → Nat → Option Nat
  | [], _ => none
  | (k, v) :: rest, key => if k = key then some v else cacheGet rest key

/-- `OptimizedBondingCurve::get_curve_params`: defaults on an empty slot. -/
def get_curve_params (slot : Option OptimizedCurveParams) :
    Except String OptimizedCurveParams :=
  match slot with
  | none => .ok OptimizedCurveParams.default
  | some p => .ok p

/-- `OptimizedBondingCurve::get_cached_price`: the cache key is the supply
rounded down to a multiple of 1000. -/
def get_cached_price (st : OptStorage) (supply : Nat) : Option Nat :=
  cacheGet st.price_cache (supply / 1000 * 1000)

/-- `OptimizedBondingCurve::set_cached_price`. -/
def set_cached_price (st : OptStorage) (supply price : Nat) : OptStorage :=
  { st with price_cache := (supply / 1000 * 1000, price) :: st.price_cache }

/-- The loop of `iterative_price_calculation`: repeatedly multiply the price
by the growth factor with a checked multiplication and truncating division by
10000, breaking at the `u128::MAX / 1000` ceiling. -/
def iterLoop (gf : Nat) : Nat → Nat → Except String Nat
  | price, 0 => .ok price
  | price, n + 1 =>
    if price * gf < U128 then
      let p2 := price * gf / 10000
      if (U128 - 1) / 1000 < p2 then .ok ((U128 - 1) / 1000)
      else iterLoop gf p2 n
    else .error "overflow"

/-- `OptimizedBondingCurve::iterative_price_calculation` (the growth factor
`10000 + growth_rate` is an unchecked `u128` addition). -/
def iterative_price_calculation (supply : Nat) (params : OptimizedCurveParams) :
    Except String Nat :=
  iterLoop ((10000 + params.growth_rate) % U128) params.base_price supply

section WithLogApprox

/- Model of `logarithmic_price_approximation`, the `f64` floating-point path
taken for supplies above 10000.  Floating point has no shallow embedding here,
so the whole optimized module is parameterized by the function it computes;
every theorem below holds for an arbitrary such function. -/
variable (logApprox : Nat → OptimizedCurveParams → Nat)

/-- `OptimizedBondingCurve::optimized_price_calculation`: the `f64`
approximation for supplies above 10000, the iterative loop otherwise. -/
def optimized_price_calculation (supply : Nat) (params : OptimizedCurveParams) :
    Except String Nat :=
  if supply = 0 then .ok params.base_price
  else if 10000 < supply then .ok (logApprox supply params)
  else iterative_price_calculation supply params

/-- `OptimizedBondingCurve::calculate_price_at_supply`: returns the cached
value when the supply's 1000-bucket has one, otherwise computes the price and
caches it under the bucket key. -/
def calculate_price_at_supply (st : OptStorage) (supply : Nat)
    (params : OptimizedCurveParams) : Except String Nat × OptStorage :=
  if supply = 0 then (.ok params.base_price, st)
  else
    match get_cached_price st supply with
    | some cached => (.ok cached, st)
    | none =>
        match optimized_price_calculation logApprox supply params with
        | .error s => (.error s, st)
        | .ok price => (.ok price, set_cached_price st supply price)

/-- `OptimizedBondingCurve::calculate_buy_price`. -/
def calculate_buy_price (st : OptStorage) (current_supply tokens_to_buy : Nat)
    (params : OptimizedCurveParams) : Except String Nat × OptStorage :=
  if tokens_to_buy = 0 then (.ok 0, st)
  else if ¬ current_supply + tokens_to_buy < U128 then (.error "overflow", st)
  else if params.max_supply < current_supply + tokens_to_buy then
    (.error "Purchase would exceed maximum supply", st)
  else if tokens_to_buy ≤ 1000 then
    match calculate_price_at_supply logApprox st current_supply params with
    | (.error s, st1) => (.error s, st1)
    | (.ok cp, st1) =>
        match chkMul cp tokens_to_buy with
        | .error s => (.error s, st1)
        | .ok total => (.ok total, st1)
  else
    match calculate_price_at_supply logApprox st current_supply params with
    | (.error s, st1) => (.error s, st1)
    | (.ok sp, st1) =>
        match calculate_price_at_supply logApprox st1 (current_supply + tokens_to_buy) params with
        | (.error s, st2) => (.error s, st2)
        | (.ok ep, st2) =>
            match chkAdd sp ep with
            | .error s => (.error s, st2)
            | .ok s2 =>
                match chkMul (s2 / 2) tokens_to_buy with
                | .error s => (.error s, st2)
                | .ok total => (.ok total, st2)

/-- `OptimizedBondingCurve::calculate_sell_price`: note the 1% discount
(`* 99 / 100`) applied to the unit price (small amounts) or to the
trapezoidal average price (large amounts) before multiplying by the
quantity. -/
def calculate_sell_price (st : OptStorage) (current_supply tokens_to_sell : Nat)
    (params : OptimizedCurveParams) : Except String Nat × OptStorage :=
  if tokens_to_sell = 0 then (.ok 0, st)
  else if current_supply < tokens_to_sell then
    (.error "Cannot sell more tokens than current supply", st)
  else if tokens_to_sell ≤ 1000 then
    match calculate_price_at_supply logApprox st (current_supply - tokens_to_sell) params with
    | (.error s, st1) => (.error s, st1)
    | (.ok cp, st1) =>
        match chkMul cp 99 with
        | .error s => (.error s, st1)
        | .ok d =>
            match chkMul (d / 100) tokens_to_sell with
            | .error s => (.error s, st1)
            | .ok total => (.ok total, st1)
  else
    match calculate_price_at_supply logApprox st (current_supply - tokens_to_sell) params with
    | (.error s, st1) => (.error s, st1)
    | (.ok sp, st1) =>
        match calculate_price_at_supply logApprox st1 current_supply params with
        | (.error s, st2) => (.error s, st2)
        | (.ok ep, st2) =>
            match chkAdd sp ep with
            | .error s => (.error s, st2)
            | .ok s2 =>
                match chkMul (s2 / 2) 99 with
                | .error s => (.error s, st2)
                | .ok d =>
                    match chkMul (d / 100) tokens_to_sell with
                    | .error s => (.error s, st2)
                    | .ok total => (.ok total, st2)

/-- First incoming transfer with the given alkane id
(`incoming_alkanes.0.iter().find(...)`). -/
def findTransfer : List (AlkaneId × Nat) → AlkaneId → Option (AlkaneId × Nat)
  | [], _ => none
  | t :: rest, id => if t.1 = id then some t else findTransfer rest id

/-- The bounded binary search of `calculate_tokens_for_base_amount`
(at most 20 iterations, threading the price cache). -/
def searchLoop (current_supply base_amount : Nat) (params : OptimizedCurveParams) :
    Nat → OptStorage → Nat → Nat → Nat → Except String Nat × OptStorage
  | 0, st, _, _, best => (.ok best, st)
  | fuel + 1, st, low, high, best =>
    if ¬ low ≤ high then (.ok best, st)
    else
      let mid := (low + high) % U128 / 2
      match calculate_buy_price logApprox st current_supply mid params with
      | (.error s, st1) => (.error s, st1)
      | (.ok cost, st1) =>
          if cost ≤ base_amount then
            searchLoop current_supply base_amount params fuel st1 ((mid + 1) % U128) high mid
          else
            searchLoop current_supply base_amount params fuel st1 low (high - 1) best

/-- `OptimizedBondingCurve::calculate_tokens_for_base_amount`: a linear
estimate for small amounts (unit-price division; a zero price panics), a
20-iteration binary search otherwise. -/
def calculate_tokens_for_base_amount (st : OptStorage) (base_amount : Nat)
    (params : OptimizedCurveParams) : Except String Nat × OptStorage :=
  let current_supply := st.totalsupply
  if base_amount ≤ 1000 * params.base_price % U128 then
    match calculate_price_at_supply logApprox st current_supply params with
    | (.error s, st1) => (.error s, st1)
    | (.ok current_price, st1) =>
        match chkMul base_amount 1000000000 with
        | .error s => (.error s, st1)
        | .ok scaled =>
            if current_price = 0 then (.error "panic: division by zero", st1)
            else (.ok (scaled / current_price), st1)
  else
    match searchLoop logApprox current_supply base_amount params 20 st 0
        (params.max_supply - current_supply) 0 with
    | (.error s, st1) => (.error s, st1)
    | (.ok best, st1) =>
        if best = 0 then (.error "Insufficient base amount to buy any tokens", st1)
        else (.ok best, st1)

/-- `OptimizedBondingCurve::buy_tokens`: rejects when graduated, locates the
base-token input, sizes the mint, mints, then adds the base amount to the
reserves with an unchecked addition. -/
def buy_tokens (ctx : Ctx) (min_tokens_out : Nat) (st : OptStorage) :
    Except String Unit × OptStorage :=
  if st.graduated = 1 then (.error "Bonding curve has graduated to AMM", st)
  else
    match get_curve_params st.curve_params with
    | .error s => (.error s, st)
    | .ok params =>
        match findTransfer ctx.incoming params.base_token.alkane_id with
        | none => (.error "No base token input found", st)
        | some (_, base_amount) =>
            match calculate_tokens_for_base_amount logApprox st base_amount params with
            | (.error s, st1) => (.error s, st1)
            | (.ok tokens_to_mint, st1) =>
                if tokens_to_mint < min_tokens_out then
                  (.error "Slippage exceeded: buy", st1)
                else if ¬ st1.totalsupply + tokens_to_mint < U128 then
                  (.error "total supply overflow", st1)
                else
                  let st2 := { st1 with totalsupply := st1.totalsupply + tokens_to_mint }
                  (.ok (), { st2 with base_reserves := (st2.base_reserves + base_amount) % U128 })

/-- `OptimizedBondingCurve::sell_tokens`. -/
def sell_tokens (_ctx : Ctx) (token_amount min_base_out : Nat) (st : OptStorage) :
    Except String Unit × OptStorage :=
  if st.graduated = 1 then (.error "Bonding curve has graduated to AMM", st)
  else
    match get_curve_params st.curve_params with
    | .error s => (.error s, st)
    | .ok params =>
        let current_supply := st.totalsupply
        match calculate_sell_price logApprox st current_supply token_amount params with
        | (.error s, st1) => (.error s, st1)
        | (.ok base_payout, st1) =>
            if base_payout < min_base_out then (.error "Slippage exceeded: sell", st1)
            else if st1.base_reserves < base_payout then
              (.error "Insufficient reserves for sell", st1)
            else if current_supply < token_amount then
              (.error "Cannot burn more tokens than exist", st1)
            else
              let st2 := { st1 with totalsupply := current_supply - token_amount }
              (.ok (), { st2 with base_reserves := st2.base_reserves - base_payout })

/-- `OptimizedBondingCurve::get_buy_quote`: quotes mutate only the price
cache. -/
def get_buy_quote (token_amount : Nat) (st : OptStorage) :
    Except String Nat × OptStorage :=
  match get_curve_params st.curve_params with
  | .error s => (.error s, st)
  | .ok params => calculate_buy_price logApprox st st.totalsupply token_amount params

/-- `OptimizedBondingCurve::get_sell_quote`. -/
def get_sell_quote (token_amount : Nat) (st : OptStorage) :
    Except String Nat × OptStorage :=
  match get_curve_params st.curve_params with
  | .error s => (.error s, st)
  | .ok params => calculate_sell_price logApprox st st.totalsupply token_amount params

/-- `OptimizedBondingCurve::initialize`. -/
def initialize_op (ctx : Ctx) (name_part1 name_part2 symbol base_price growth_rate
    graduation_threshold base_token_type max_supply lp_distribution_strategy : Nat)
    (st : OptStorage) : Except String Unit × OptStorage :=
  if st.initialized then (.error "Contract already initialized", st)
  else
    let st1 := { st with initialized := true }
    match (match base_token_type with
           | 0 => some BaseToken.BUSD
           | 1 => some BaseToken.FrBtc
           | _ => none) with
    | none => (.error "Invalid base token type", st1)
    | some bt =>
        if 3 < lp_distribution_strategy then
          (.error "Invalid LP distribution strategy (0-3)", st1)
        else
          let params : OptimizedCurveParams :=
            ⟨base_price, growth_rate, graduation_threshold, bt, max_supply, 1000⟩
          (.ok (),
           { st1 with
               curve_params := some params
               name := some (name_part1, name_part2)
               symbol := some symbol
               base_reserves := 0
               data := some ctx.witness_payload })

/-- `OptimizedBondingCurve::graduate`: the stub marks the curve graduated
unconditionally (no already-graduated check) and reports success. -/
def graduate (_ctx : Ctx) (st : OptStorage) : Except String Unit × OptStorage :=
  (.ok (), { st with graduated := 1 })

/-- The dispatched message set of `OptimizedBondingCurve`. -/
inductive OptMsg where
  | initializeOp (name_part1 name_part2 symbol base_price growth_rate
      graduation_threshold base_token_type max_supply lp_distribution_strategy : Nat)
  | buyTokens (min_tokens_out : Nat)
  | sellTokens (token_amount min_base_out : Nat)
  | getBuyQuote (token_amount : Nat)
  | getSellQuote (token_amount : Nat)
  | graduate
  | getCurveState
  | getName
  | getSymbol
  | getTotalSupply
  | getBaseReservesResponse
  | getAmmPoolAddress
  | isGraduatedResponse
  | getData

/-- `MessageDispatch::dispatch` for `OptimizedBondingCurve`, responses
reduced to success or failure. -/
def step (m : OptMsg) (ctx : Ctx) (st : OptStorage) :
    Except String Unit × OptStorage :=
  match m with
  | .initializeOp a b c d e f g h i => initialize_op ctx a b c d e f g h i st
  | .buyTokens m => buy_tokens logApprox ctx m st
  | .sellTokens a b => sell_tokens logApprox ctx a b st
  | .getBuyQuote a =>
      match get_buy_quote logApprox a st with
      | (.error s, st1) => (.error s, st1)
      | (.ok _, st1) => (.ok (), st1)
  | .getSellQuote a =>
      match get_sell_quote logApprox a st with
      | (.error s, st1) => (.error s, st1)
      | (.ok _, st1) => (.ok (), st1)
  | .graduate => graduate ctx st
  | .getCurveState => (.ok (), st)
  | .getName => (.ok (), st)
  | .getSymbol => (.ok (), st)
  | .getTotalSupply => (.ok (), st)
  | .getBaseReservesResponse => (.ok (), st)
  | .getAmmPoolAddress => (.ok (), st)
  | .isGraduatedResponse => (.ok (), st)
  | .getData => (.ok (), st)

end WithLogApprox

/-- Reachable storage states of an `OptimizedBondingCurve` instance: the
freshly deployed (all-empty) storage, closed under dispatching any message
with any host context. -/
inductive Reachable (logApprox : Nat → OptimizedCurveParams → Nat) : OptStorage → Prop
  | deployed : Reachable logApprox {}
  | dispatch (m : OptMsg) (ctx : Ctx) (st : OptStorage) :
      Reachable logApprox st → Reachable logApprox (step logApprox m ctx st).2

end Optimized

/-- Storage of a `BondingCurveToken` instance in `lib.rs`.  The keyword slots
of `CurveCalculator` and `AMMIntegration` live in the same storage space, so
`graduated`, `base_reserves` and `curve_params` here are the slots those
modules read and write too. -/
structure CurveStorage where
  initialized : Bool := false
  name : Option (Nat × Nat) := none
  symbol : Option Nat := none
  totalsupply : Nat := 0
  curve_params : Option CurveParams := none
  base_reserves : Nat := 0
  graduated : Nat := 0
  amm_pool : Nat := 0
  factory : Option AlkaneId := none
  amm_pool_address : Nat := 0
  graduation_block : Nat := 0
deriving DecidableEq

/-- Token pair reported by the external AMM. -/
structure TokenPair where
  token0 : AlkaneId
  token1 : AlkaneId
deriving DecidableEq

/-- Oracle for the external Oyl AMM collaborator: the result each external
call returns during one graduation attempt. -/
structure AmmOracle where
  create_pool : Except String Nat
  pool_at : Nat → Except String Unit
  get_pair : Nat → Except String TokenPair
  is_initialized : Nat → Except String Bool
  add_liquidity : Nat → Except String (Nat × Nat)

namespace AMMIntegration

/-- `AMMIntegration::get_lp_distribution_strategy` (a stub returning 0). -/
def get_lp_distribution_strategy : Nat := 0

/-- The bucket amounts computed by the `match strategy` block of
`distribute_lp_tokens`, in the order each arm computes them.  All but the
last bucket of an arm are unchecked percentage multiplications with
truncating division; the last is the remainder. -/
def lp_buckets (strategy lp_tokens : Nat) : List Nat :=
  match strategy with
  | 0 =>
      let burn := lp_tokens * 80 % U128 / 100
      [burn, lp_tokens - burn]
  | 1 =>
      let community := lp_tokens * 60 % U128 / 100
      let holder := lp_tokens * 20 % U128 / 100
      [community, holder, lp_tokens - community - holder]
  | 2 =>
      let creator := lp_tokens * 40 % U128 / 100
      let holder := lp_tokens * 40 % U128 / 100
      [creator, holder, lp_tokens - creator - holder]
  | 3 =>
      let dao := lp_tokens * 50 % U128 / 100
      let holder := lp_tokens * 30 % U128 / 100
      [dao, holder, lp_tokens - dao - holder]
  | _ =>
      let burn := lp_tokens * 80 % U128 / 100
      [burn, lp_tokens - burn]

/-- `AMMIntegration::distribute_lp_tokens`, parameterized by the strategy it
reads from `get_lp_distribution_strategy`; the per-bucket disbursement stubs
always succeed, so the result is the list of computed bucket amounts. -/
def distribute_lp_tokens (strategy lp_tokens : Nat) : Except String (List Nat) :=
  if lp_tokens = 0 then .error "No LP tokens to distribute"
  else .ok (lp_buckets strategy lp_tokens)

/-- `AMMIntegration::calculate_pool_ratios`: 20% of supply as token
liquidity (unchecked multiply), matched by base liquidity at the current
price, capped at the available reserves. -/
def calculate_pool_ratios (token_supply base_reserves : Nat)
    (params : CurveParams) : Except String (Nat × Nat) :=
  let token_liquidity := token_supply * 20 % U128 / 100
  let current_price :=
    (CurveCalculator.price_at_supply token_supply params).toOption.getD params.base_price
  let base_liquidity_needed := token_liquidity * current_price % U128 / 1000000000
  let base_liquidity :=
    if base_liquidity_needed ≤ base_reserves then base_liquidity_needed else base_reserves
  .ok (token_liquidity, base_liquidity)

/-- `AMMIntegration::call_oyl_factory_create_pool`. -/
def call_oyl_factory_create_pool (o : AmmOracle) (token_a token_b : AlkaneId) :
    Except String Nat :=
  match o.create_pool with
  | .error s => .error s
  | .ok pool_address =>
      match o.pool_at pool_address with
      | .error s => .error s
      | .ok _ =>
          match o.get_pair pool_address with
          | .error s => .error s
          | .ok pair =>
              if pair = ⟨token_a, token_b⟩ then .ok pool_address
              else .error "Pool creation verification failed"

/-- `AMMIntegration::verify_pool_creation`. -/
def verify_pool_creation (o : AmmOracle) (pool_address : Nat)
    (token_a token_b : AlkaneId) : Except String Bool :=
  match o.pool_at pool_address with
  | .error s => .error s
  | .ok _ =>
      match o.get_pair pool_address with
      | .error s => .error s
      | .ok pair =>
          match o.is_initialized pool_address with
          | .error s => .error s
          | .ok init =>
              .ok (((pair.token0 = token_a ∧ pair.token1 = token_b) ∨
                    (pair.token0 = token_b ∧ pair.token1 = token_a)) ∧ init)

/-- `AMMIntegration::verify_token_balance` (a stub returning `true`). -/
def verify_token_balance (_token : AlkaneId) (_required : Nat) :
    Except String Bool :=
  .ok true

/-- `AMMIntegration::transfer_tokens_to_pool`: checks balances via the stub,
reads the pair and builds a local (dropped) response; no curve state
changes. -/
def transfer_tokens_to_pool (o : AmmOracle) (pool_address : Nat)
    (token_id : AlkaneId) (token_amount : Nat) (base_token_id : AlkaneId)
    (base_amount : Nat) : Except String Unit :=
  match o.pool_at pool_address with
  | .error s => .error s
  | .ok _ =>
      match verify_token_balance token_id token_amount with
      | .error s => .error s
      | .ok ok1 =>
          if ¬ ok1 then .error "Insufficient bonding curve tokens for pool"
          else
            match verify_token_balance base_token_id base_amount with
            | .error s => .error s
            | .ok ok2 =>
                if ¬ ok2 then .error "Insufficient base tokens for pool"
                else
                  match o.get_pair pool_address with
                  | .error s => .error s
                  | .ok _ => .ok ()

/-- `AMMIntegration::add_initial_liquidity`: add liquidity through the pool
and fail when zero LP tokens come back. -/
def add_initial_liquidity (o : AmmOracle) (pool_address : Nat)
    (_token_id : AlkaneId) (_token_amount : Nat) (_base_token_id : AlkaneId)
    (_base_amount : Nat) : Except String Nat :=
  match o.pool_at pool_address with
  | .error s => .error s
  | .ok _ =>
      match o.add_liquidity pool_address with
      | .error s => .error s
      | .ok (lp_tokens, _) =>
          if lp_tokens = 0 then .error "Failed to receive LP tokens from pool"
          else .ok lp_tokens

/-- `AMMIntegration::create_oyl_pool_atomic`: the all-or-nothing external
call chain (create, verify, transfer, add liquidity, distribute). -/
def create_oyl_pool_atomic (ctx : Ctx) (base_token : BaseToken)
    (token_liquidity base_liquidity : Nat) (o : AmmOracle) :
    Except String Nat :=
  match call_oyl_factory_create_pool o ctx.myself base_token.alkane_id with
  | .error s => .error s
  | .ok pool_address =>
      match verify_pool_creation o pool_address ctx.myself base_token.alkane_id with
      | .error s => .error s
      | .ok verified =>
          if ¬ verified then .error "Pool creation verification failed"
          else
            match transfer_tokens_to_pool o pool_address ctx.myself token_liquidity
                base_token.alkane_id base_liquidity with
            | .error s => .error s
            | .ok _ =>
                match add_initial_liquidity o pool_address ctx.myself token_liquidity
                    base_token.alkane_id base_liquidity with
                | .error s => .error s
                | .ok lp_tokens =>
                    match distribute_lp_tokens get_lp_distribution_strategy lp_tokens with
                    | .error s => .error s
                    | .ok _ => .ok pool_address

/-- `AMMIntegration::graduate_to_amm`: each `?`-propagated failure is an
early return that leaves the storage untouched; the graduated flag, pool
address and graduation block are written only after the whole external chain
succeeds.  The returned `Nat` is the pool address carried in the response
data. -/
def graduate_to_amm (ctx : Ctx) (token_supply : Nat) (o : AmmOracle)
    (st : CurveStorage) : Except String Nat × CurveStorage :=
  if st.graduated = 1 then (.error "Bonding curve has already graduated", st)
  else
    match CurveCalculator.get_curve_params st.curve_params with
    | .error s => (.error s, st)
    | .ok params =>
        if ¬ CurveCalculator.check_graduation_criteria token_supply st.base_reserves params then
          (.error "Graduation criteria not met", st)
        else
          match calculate_pool_ratios token_supply st.base_reserves params with
          | .error s => (.error s, st)
          | .ok (token_liquidity, base_liquidity) =>
              match create_oyl_pool_atomic ctx params.base_token token_liquidity
                  base_liquidity o with
              | .error s => (.error s, st)
              | .ok pool_address =>
                  (.ok pool_address,
                   { st with graduated := 1, amm_pool_address := pool_address,
                             graduation_block := 0 })

end AMMIntegration

/-- The `Context::default()` value that `BondingCurveToken::initialize` and
`BondingCurveToken::graduate` construct instead of reading the host context:
caller and self are both the zero alkane id. -/
def defaultCtx : Ctx := { myself := ⟨0, 0⟩, caller := ⟨0, 0⟩ }

namespace BondingCurveToken

/-- Deserialization of the curve-parameters slot as done inline by the
`lib.rs` handlers (`serde_json::from_slice`): an empty slot is a parse
error, unlike `CurveCalculator::get_curve_params`. -/
def parse_params (slot : Option CurveParams) : Except String CurveParams :=
  match slot with
  | none => .error "Failed to deserialize curve params"
  | some p => .ok p

/-- `BondingCurveToken::initialize`.  The handler builds `Context::default()`,
so the recorded factory is the zero alkane id and the factory-only check
(`block == 0 || tx == 0`) always fails; the initialization flag and factory
slot are written before that check. -/
def initialize_op (_ctx : Ctx) (name_part1 name_part2 symbol base_price growth_rate
    graduation_threshold base_token_type max_supply lp_distribution_strategy : Nat)
    (st : CurveStorage) : Except String Unit × CurveStorage :=
  if st.initialized then (.error "already initialized", st)
  else
    let caller := defaultCtx.caller
    let st1 := { st with initialized := true, factory := some caller }
    if caller.block = 0 ∨ caller.tx = 0 then (.error "Only factory can initialize", st1)
    else if base_price = 0 then (.error "base_price must be greater than 0", st1)
    else if max_supply = 0 then (.error "max_supply must be greater than 0", st1)
    else if 10000 < growth_rate then (.error "growth_rate too high (bps)", st1)
    else if 3 < lp_distribution_strategy then
      (.error "invalid lp_distribution_strategy", st1)
    else
      let st2 := { st1 with name := some (name_part1, name_part2), symbol := some symbol }
      match (match base_token_type with
             | 0 => some BaseToken.BUSD
             | 1 => some BaseToken.FrBtc
             | _ => none) with
      | none => (.error "Invalid base token type", st2)
      | some bt =>
          (.ok (),
           { st2 with
               curve_params := some ⟨base_price, growth_rate, graduation_threshold, bt, max_supply⟩
               totalsupply := 0
               base_reserves := 0
               graduated := 0
               amm_pool := 0 })

/-- `BondingCurveToken::buy_tokens` (the dispatched `BuyTokens` opcode):
`tokens_to_mint` is simply `min_tokens_out`, the supply cap is enforced with
a checked add, the supply is written, and the reserve increment
`tokens_to_mint * base_price` is an unchecked multiplication inside a checked
add. -/
def buy_tokens (min_tokens_out : Nat) (st : CurveStorage) :
    Except String Unit × CurveStorage :=
  if st.graduated ≠ 0 then (.error "Bonding curve has graduated to AMM", st)
  else
    match parse_params st.curve_params with
    | .error s => (.error s, st)
    | .ok params =>
        let tokens_to_mint := min_tokens_out
        if tokens_to_mint < min_tokens_out then
          (.error "Slippage exceeded: buy", st)
        else
          let current_supply := st.totalsupply
          if ¬ (current_supply + tokens_to_mint < U128 ∧
                current_supply + tokens_to_mint ≤ params.max_supply) then
            (.error "cap", st)
          else
            let st1 := { st with totalsupply := current_supply + tokens_to_mint }
            let increment := tokens_to_mint * params.base_price % U128
            if st.base_reserves + increment < U128 then
              (.ok (), { st1 with base_reserves := st.base_reserves + increment })
            else (.error "Reserves overflow", st1)

/-- `BondingCurveToken::sell_tokens`. -/
def sell_tokens (token_amount min_base_out : Nat) (st : CurveStorage) :
    Except String Unit × CurveStorage :=
  if st.graduated ≠ 0 then (.error "Bonding curve has graduated to AMM", st)
  else
    match parse_params st.curve_params with
    | .error s => (.error s, st)
    | .ok params =>
        let base_payout := token_amount * params.base_price % U128
        if base_payout < min_base_out then (.error "Slippage exceeded: sell", st)
        else if st.base_reserves < base_payout then
          (.error "Insufficient reserves for sell", st)
        else if st.totalsupply < token_amount then
          (.error "Cannot burn more tokens than exist", st)
        else
          let st1 := { st with totalsupply := st.totalsupply - token_amount }
          if st.base_reserves < base_payout then (.error "Reserves underflow", st1)
          else (.ok (), { st1 with base_reserves := st.base_reserves - base_payout })

/-- `BondingCurveToken::get_buy_quote` (reads only). -/
def get_buy_quote (token_amount : Nat) (st : CurveStorage) :
    Except String Nat × CurveStorage :=
  match parse_params st.curve_params with
  | .error s => (.error s, st)
  | .ok params => (.ok (token_amount * params.base_price % U128), st)

/-- `BondingCurveToken::get_sell_quote` (reads only). -/
def get_sell_quote (token_amount : Nat) (st : CurveStorage) :
    Except String Nat × CurveStorage :=
  match parse_params st.curve_params with
  | .error s => (.error s, st)
  | .ok params => (.ok (token_amount * params.base_price % U128), st)

/-- `BondingCurveToken::graduate`: rejects when already graduated, checks a
simplified market cap (unchecked `supply * base_price`), delegates to
`AMMIntegration::graduate_to_amm`, then writes the graduated flag and pool
slot before parsing the stored factory id. -/
def graduate (o : AmmOracle) (st : CurveStorage) :
    Except String Unit × CurveStorage :=
  if st.graduated ≠ 0 then (.error "Already graduated to AMM", st)
  else
    match parse_params st.curve_params with
    | .error s => (.error s, st)
    | .ok params =>
        let current_supply := st.totalsupply
        let market_cap := current_supply * params.base_price % U128
        if market_cap < params.graduation_threshold then
          (.error "Market cap below graduation threshold", st)
        else
          match AMMIntegration.graduate_to_amm defaultCtx current_supply o st with
          | (.error s, st1) => (.error s, st1)
          | (.ok pool_address, st1) =>
              let st2 := { st1 with graduated := 1, amm_pool := pool_address }
              match st2.factory with
              | none => (.error "factory id parse failed", st2)
              | some _ => (.ok (), st2)

/-- `BondingCurveToken::get_curve_state` (reads only; parses the params). -/
def get_curve_state (st : CurveStorage) : Except String Unit × CurveStorage :=
  match parse_params st.curve_params with
  | .error s => (.error s, st)
  | .ok _ => (.ok (), st)

/-- The dispatched message set of `BondingCurveToken` in `lib.rs`. -/
inductive LibMsg where
  | initializeOp (name_part1 name_part2 symbol base_price growth_rate
      graduation_threshold base_token_type max_supply lp_distribution_strategy : Nat)
  | buyTokens (min_tokens_out : Nat)
  | sellTokens (token_amount min_base_out : Nat)
  | getBuyQuote (token_amount : Nat)
  | getSellQuote (token_amount : Nat)
  | graduate
  | getCurveState
  | getName
  | getSymbol
  | getTotalSupply
  | getBaseReserves
  | getAmmPoolAddress
  | isGraduated

/-- `MessageDispatch::dispatch` for `BondingCurveToken`, with responses
reduced to success or failure. -/
def step (m : LibMsg) (ctx : Ctx) (o : AmmOracle) (st : CurveStorage) :
    Except String Unit × CurveStorage :=
  match m with
  | .initializeOp a b c d e f g h i => initialize_op ctx a b c d e f g h i st
  | .buyTokens m => buy_tokens m st
  | .sellTokens a b => sell_tokens a b st
  | .getBuyQuote a =>
      match get_buy_quote a st with
      | (.error s, st1) => (.error s, st1)
      | (.ok _, st1) => (.ok (), st1)
  | .getSellQuote a =>
      match get_sell_quote a st with
      | (.error s, st1) => (.error s, st1)
      | (.ok _, st1) => (.ok (), st1)
  | .graduate => graduate o st
  | .getCurveState => get_curve_state st
  | .getName => (.ok (), st)
  | .getSymbol => (.ok (), st)
  | .getTotalSupply => (.ok (), st)
  | .getBaseReserves => (.ok (), st)
  | .getAmmPoolAddress => (.ok (), st)
  | .isGraduated => (.ok (), st)

end BondingCurveToken

/-!  Auxiliary definitions used by the theorem statements below: the
specification-side reference for the sell integrator, the cache-soundness
predicate, and concrete states, oracles and parameter values at which the
claims are exercised. -/

/-- A concrete stand-in for the floating-point approximation parameter: all
statements about small supplies never consult it. -/
def L0 : Nat → OptimizedCurveParams → Nat := fun _ _ => 0

namespace Optimized

/-- Every cache entry is the uncached price computation's result at some
nonzero supply of that bucket. -/
def CacheOK (logApprox : Nat → OptimizedCurveParams → Nat)
    (params : OptimizedCurveParams) (st : OptStorage) : Prop :=
  ∀ k v, cacheGet st.price_cache k = some v →
    ∃ s, s ≠ 0 ∧ s / 1000 * 1000 = k ∧
      optimized_price_calculation logApprox s params = .ok v

/-- Run a sequence of price queries, keeping only the evolving storage. -/
def runQueries (logApprox : Nat → OptimizedCurveParams → Nat)
    (params : OptimizedCurveParams) : List Nat → OptStorage → OptStorage
  | [], st => st
  | q :: rest, st =>
      runQueries logApprox params rest (calculate_price_at_supply logApprox st q params).2

end Optimized

/-- The storage holding the price cache produced by querying supply 100 on a
fresh optimized curve with default parameters. -/
def cacheAfter100 : Optimized.OptStorage :=
  Optimized.runQueries L0 OptimizedCurveParams.default [100] {}

/-- The price the uncached optimized computation yields at supply 100 with
default parameters. -/
def priceAt100 : Nat :=
  (Optimized.optimized_price_calculation L0 100 OptimizedCurveParams.default).toOption.getD 0

/-- Reference named by the claim for the sell payout (follows the spec's
words, for comparison with `calculate_sell_price`): the exact or trapezoidal
integral of `price_at_supply` over `[current_supply - quantity,
current_supply)`, before any discount. -/
def theoretical_sell_return (current_supply tokens_to_sell : Nat)
    (params : CurveParams) : Except String Nat :=
  if tokens_to_sell ≤ 100 ∨ current_supply - tokens_to_sell < 1000 then
    CurveCalculator.calculate_precise_sell_return
      (current_supply - tokens_to_sell) tokens_to_sell params
  else
    match CurveCalculator.price_at_supply_fixed_point
            (current_supply - tokens_to_sell) params,
          CurveCalculator.price_at_supply_fixed_point (current_supply - 1) params with
    | .ok sp, .ok ep => chkMul ((sp + ep) % U128 / 2) tokens_to_sell
    | .error s, _ => .error s
    | .ok _, .error s => .error s

/-- Sum of the optimized uncached unit prices over supplies 5 through 9 with
default parameters: the claim's theoretical sell integral for selling 5 from
a supply of 10 on the optimized curve. -/
def c5_theoretical : Nat :=
  ((Optimized.optimized_price_calculation L0 5 OptimizedCurveParams.default).toOption.getD 0) +
  ((Optimized.optimized_price_calculation L0 6 OptimizedCurveParams.default).toOption.getD 0) +
  ((Optimized.optimized_price_calculation L0 7 OptimizedCurveParams.default).toOption.getD 0) +
  ((Optimized.optimized_price_calculation L0 8 OptimizedCurveParams.default).toOption.getD 0) +
  ((Optimized.optimized_price_calculation L0 9 OptimizedCurveParams.default).toOption.getD 0)

/-- A host context for freshly exercising the optimized curve. -/
def ctx0 : Ctx := { myself := ⟨100, 1⟩, caller := ⟨7, 7⟩ }

/-- The optimized curve storage reached by dispatching `Graduate` once on a
freshly deployed instance. -/
def optGraduated : Optimized.OptStorage := (Optimized.step L0 .graduate ctx0 {}).2

/-- Curve storage meeting the reserve graduation criterion under default
parameters (reserves equal to half the graduation threshold). -/
def c1State : CurveStorage := { base_reserves := 5000000000000 }

/-- AMM oracle whose pool creation, pair report and initialization succeed
but whose `add_liquidity` returns zero LP tokens. -/
def zeroLpOracle : AmmOracle :=
  { create_pool := .ok 777
    pool_at := fun _ => .ok ()
    get_pair := fun _ => .ok ⟨⟨100, 1⟩, ⟨2, 56801⟩⟩
    is_initialized := fun _ => .ok true
    add_liquidity := fun _ => .ok (0, 0) }

/-- AMM oracle whose whole call chain succeeds with 5 LP tokens. -/
def happyOracle : AmmOracle :=
  { create_pool := .ok 777
    pool_at := fun _ => .ok ()
    get_pair := fun _ => .ok ⟨⟨100, 1⟩, ⟨2, 56801⟩⟩
    is_initialized := fun _ => .ok true
    add_liquidity := fun _ => .ok (5, 0) }

/-- Storage whose parameters carry an enormous base price, making the
unchecked reserve-increment multiplication of `buy_tokens` wrap. -/
def c9State : CurveStorage :=
  { initialized := true, curve_params := some ⟨2 ^ 127, 0, 0, .BUSD, 100⟩ }

/-- Initialized storage with default curve parameters. -/
def c9Witness : CurveStorage :=
  { initialized := true, curve_params := some CurveParams.default }

/-- Post-state of buying 3 tokens on `c9Witness`. -/
def c9Witness2 : CurveStorage := (BondingCurveToken.buy_tokens 3 c9Witness).2

/-- A graduated `lib.rs` curve storage with default parameters. -/
def libGraduated : CurveStorage :=
  { initialized := true, curve_params := some CurveParams.default, graduated := 1 }

/-!  Theorems.  -/

/-- C10: an empty curve-parameters slot makes `get_curve_params` (both the
`CurveCalculator` and the `OptimizedBondingCurve` version) return `Ok` with
the default parameters — base price 1_000_000, growth rate 1500 bps,
graduation threshold 10^13, BUSD base token, max supply 10^15 — rather than
an error, so operations routed through it (for example the optimized buy
quote on a never-initialized curve) price against these defaults. -/
theorem get_curve_params_defaults :
    CurveCalculator.get_curve_params none = .ok CurveParams.default ∧
    Optimized.get_curve_params none = .ok OptimizedCurveParams.default ∧
    CurveParams.default.base_price = 1000000 ∧
    CurveParams.default.growth_rate = 1500 ∧
    CurveParams.default.graduation_threshold = 10000000000000 ∧
    CurveParams.default.base_token = .BUSD ∧
    CurveParams.default.max_supply = 1000000000000000 ∧
    OptimizedCurveParams.default.base_price = 1000000 ∧
    OptimizedCurveParams.default.growth_rate = 1500 ∧
    OptimizedCurveParams.default.graduation_threshold = 10000000000000 ∧
    OptimizedCurveParams.default.base_token = .BUSD ∧
    OptimizedCurveParams.default.max_supply = 1000000000000000 ∧
    (∀ (L : Nat → OptimizedCurveParams → Nat) (amt : Nat),
       Optimized.get_buy_quote L amt {} =
         Optimized.calculate_buy_price L {} 0 amt OptimizedCurveParams.default) := by
  refine ⟨rfl, rfl, rfl, rfl, rfl, rfl, rfl, rfl, rfl, rfl, rfl, rfl, ?_⟩
  intro L amt
  rfl

/-- C6: `check_graduation_criteria` returns `true` exactly when the market
cap reaches the graduation threshold (inclusive `≥` boundary), or the
reserves reach half the threshold, or the reserves reach 30% of the market
cap while the supply reaches a twentieth of the max supply. -/
theorem graduation_criteria_disjunction (current_supply base_reserves : Nat)
    (params : CurveParams) :
    CurveCalculator.check_graduation_criteria current_supply base_reserves params = true ↔
      (params.graduation_threshold ≤ CurveCalculator.market_cap current_supply params ∨
       params.graduation_threshold / 2 ≤ base_reserves ∨
       (CurveCalculator.market_cap current_supply params * 30 / 100 ≤ base_reserves ∧
        params.max_supply / 20 ≤ current_supply)) := by
  unfold CurveCalculator.check_graduation_criteria
  split_ifs <;> simp_all <;> omega

/-- C8 counterexample: `distribute_lp_tokens` does not succeed for every
amount `T ≥ 0`; at `T = 0` it fails. -/
theorem distribute_lp_tokens_zero_counterexample :
    AMMIntegration.distribute_lp_tokens 0 0 = .error "No LP tokens to distribute" :=
  rfl

/-- C8 amended: for every strategy value and every positive `u128` LP amount
`T`, `distribute_lp_tokens` succeeds and its computed buckets (last bucket a
remainder) sum to exactly `T`; the full-burn strategy splits 10^9 into
burn 8·10^8 and holders 2·10^8.  (At `T = 0` the call instead errors.) -/
theorem lp_distribution_no_rounding_loss :
    (∀ strategy T : Nat, 0 < T → T < U128 →
       AMMIntegration.distribute_lp_tokens strategy T =
         .ok (AMMIntegration.lp_buckets strategy T) ∧
       (AMMIntegration.lp_buckets strategy T).sum = T) ∧
    AMMIntegration.distribute_lp_tokens 0 1000000000 = .ok [800000000, 200000000] := by
  refine ⟨fun strategy T hT hTU => ⟨?_, ?_⟩, rfl⟩
  · unfold AMMIntegration.distribute_lp_tokens
    rw [if_neg (by omega)]
  · have key : ∀ j k : Nat, j + k ≤ 100 →
        T * j % U128 / 100 + T * k % U128 / 100 ≤ T := by
      intro j k hjk
      have l1 : T * j % U128 / 100 ≤ T * j / 100 :=
        Nat.div_le_div_right (Nat.mod_le _ _)
      have l2 : T * k % U128 / 100 ≤ T * k / 100 :=
        Nat.div_le_div_right (Nat.mod_le _ _)
      have l3 : T * j / 100 + T * k / 100 ≤ (T * j + T * k) / 100 := by
        rw [Nat.le_div_iff_mul_le (by norm_num : 0 < 100), Nat.add_mul]
        exact Nat.add_le_add (Nat.div_mul_le_self _ _) (Nat.div_mul_le_self _ _)
      have l4 : (T * j + T * k) / 100 ≤ T := by
        rw [← Nat.mul_add]
        calc T * (j + k) / 100 ≤ T * 100 / 100 :=
              Nat.div_le_div_right (Nat.mul_le_mul_left T hjk)
          _ = T := Nat.mul_div_cancel _ (by norm_num)
      exact le_trans (Nat.add_le_add l1 l2) (le_trans l3 l4)
    match strategy with
    | 0 =>
        have hb : T * 80 % U128 / 100 ≤ T := by simpa using key 80 0 (by norm_num)
        simp only [AMMIntegration.lp_buckets, List.sum_cons, List.sum_nil]
        rw [Nat.add_zero, Nat.add_sub_cancel' hb]
    | 1 =>
        have hb := key 60 20 (by norm_num)
        simp only [AMMIntegration.lp_buckets, List.sum_cons, List.sum_nil]
        rw [Nat.add_zero, Nat.sub_sub, ← Nat.add_assoc, Nat.add_sub_cancel' hb]
    | 2 =>
        have hb := key 40 40 (by norm_num)
        simp only [AMMIntegration.lp_buckets, List.sum_cons, List.sum_nil]
        rw [Nat.add_zero, Nat.sub_sub, ← Nat.add_assoc, Nat.add_sub_cancel' hb]
    | 3 =>
        have hb := key 50 30 (by norm_num)
        simp only [AMMIntegration.lp_buckets, List.sum_cons, List.sum_nil]
        rw [Nat.add_zero, Nat.sub_sub, ← Nat.add_assoc, Nat.add_sub_cancel' hb]
    | n + 4 =>
        have hb : T * 80 % U128 / 100 ≤ T := by simpa using key 80 0 (by norm_num)
        simp only [AMMIntegration.lp_buckets, List.sum_cons, List.sum_nil]
        rw [Nat.add_zero, Nat.add_sub_cancel' hb]

/-- C8 witness: the amended statement applied to the creator strategy with
`T = 5`. -/
theorem lp_distribution_no_rounding_loss_witness :
    AMMIntegration.distribute_lp_tokens 2 5 = .ok (AMMIntegration.lp_buckets 2 5) ∧
    (AMMIntegration.lp_buckets 2 5).sum = 5 :=
  lp_distribution_no_rounding_loss.1 2 5 (by decide) (by norm_num [U128])

/-- C9 counterexample: a successful `BondingCurveToken::buy_tokens` call does
not always raise the reserves by `min_tokens_out * base_price`: with base
price `2^127`, buying 2 tokens succeeds, mints 2, and leaves the reserves at
0 because the unchecked multiplication wraps, while the claimed increment is
`2^128 ≠ 0`. -/
theorem buy_tokens_reserve_wrap_counterexample :
    (BondingCurveToken.buy_tokens 2 c9State).1 = .ok () ∧
    (BondingCurveToken.buy_tokens 2 c9State).2.totalsupply = 2 ∧
    (BondingCurveToken.buy_tokens 2 c9State).2.base_reserves = 0 ∧
    c9State.base_reserves + 2 * 2 ^ 127 ≠ 0 := by
  refine ⟨rfl, rfl, rfl, by decide⟩

/-- C9 amended: every successful `buy_tokens` call mints exactly
`min_tokens_out` tokens and raises the reserves by
`min_tokens_out * base_price` reduced modulo `2^128` (equal to the plain
product whenever it fits in a `u128`), and the slippage error branch is
unreachable for every input and state. -/
theorem buy_tokens_exact_mint :
    (∀ (m : Nat) (st : CurveStorage) (p : CurveParams) (st2 : CurveStorage),
       st.curve_params = some p →
       BondingCurveToken.buy_tokens m st = (.ok (), st2) →
       st2.totalsupply = st.totalsupply + m ∧
       st2.base_reserves = st.base_reserves + m * p.base_price % U128) ∧
    (∀ (m : Nat) (st : CurveStorage),
       (BondingCurveToken.buy_tokens m st).1 ≠ .error "Slippage exceeded: buy") := by
  constructor
  · intro m st p st2 hp h
    unfold BondingCurveToken.buy_tokens at h
    rw [hp] at h
    simp only [BondingCurveToken.parse_params] at h
    split_ifs at h with hg hm hcap hres <;>
      first
        | exact absurd hm (lt_irrefl m)
        | (obtain ⟨-, h2⟩ := Prod.mk.injEq .. ▸ h
           subst h2
           exact ⟨rfl, rfl⟩)
        | simp at h
  · intro m st
    unfold BondingCurveToken.buy_tokens
    cases hcp : st.curve_params with
    | none =>
        simp only [BondingCurveToken.parse_params]
        split_ifs <;> simp
    | some p =>
        simp only [BondingCurveToken.parse_params]
        split_ifs with hg hm hcap hres <;> simp_all

/-- C9 witness: buying 3 tokens on an initialized curve with default
parameters mints 3 and adds `3 * base_price` to the reserves. -/
theorem buy_tokens_exact_mint_witness :
    c9Witness2.totalsupply = c9Witness.totalsupply + 3 ∧
    c9Witness2.base_reserves =
      c9Witness.base_reserves + 3 * CurveParams.default.base_price % U128 :=
  buy_tokens_exact_mint.1 3 c9Witness CurveParams.default c9Witness2 rfl rfl

/-- C1: if any step of `graduate_to_amm` after the already-graduated check
fails (criteria check, ratio computation, pool creation, verification,
transfer, `add_liquidity` — including the zero-LP-token rejection — or LP
distribution), the call returns an error and the curve storage is returned
completely unchanged: the flag stays down, no pool address or graduation
block is recorded and the reserves are untouched. -/
theorem amm_graduation_atomic (ctx : Ctx) (token_supply : Nat) (o : AmmOracle)
    (st : CurveStorage) (hflag : st.graduated = 0) (e : String)
    (h : (AMMIntegration.graduate_to_amm ctx token_supply o st).1 = .error e) :
    (AMMIntegration.graduate_to_amm ctx token_supply o st).2 = st := by
  revert h
  unfold AMMIntegration.graduate_to_amm
  rw [hflag]
  norm_num
  split
  · intro h; rfl
  · split_ifs with hc
    · intro h; rfl
    · split
      · intro h; rfl
      · split
        · intro h; rfl
        · intro h; simp at h

theorem calculate_price_at_supply_graduated (L : Nat → OptimizedCurveParams → Nat)
    (st : Optimized.OptStorage) (s : Nat) (p : OptimizedCurveParams) :
    ((Optimized.calculate_price_at_supply L st s p).2).graduated = st.graduated := by
  unfold Optimized.calculate_price_at_supply
  split
  · rfl
  · split
    · rfl
    · split
      · rfl
      · rfl

theorem calculate_buy_price_graduated (L : Nat → OptimizedCurveParams → Nat)
    (st : Optimized.OptStorage) (cs q : Nat) (p : OptimizedCurveParams) :
    ((Optimized.calculate_buy_price L st cs q p).2).graduated = st.graduated := by
  rcases h1 : Optimized.calculate_price_at_supply L st cs p with ⟨r1, st1⟩
  have hp1 := calculate_price_at_supply_graduated L st cs p
  rw [h1] at hp1
  unfold Optimized.calculate_buy_price
  rw [h1]
  split_ifs <;> try rfl
  all_goals cases r1 <;> dsimp only
  all_goals try exact hp1
  all_goals first
    | (unfold chkMul
       split_ifs <;> dsimp only <;> exact hp1)
    | (rcases h2 : Optimized.calculate_price_at_supply L st1 (cs + q) p with ⟨r2, st2⟩
       have hp2 := calculate_price_at_supply_graduated L st1 (cs + q) p
       rw [h2] at hp2
       cases r2 <;> dsimp only
       all_goals try exact hp2.trans hp1
       all_goals unfold chkAdd chkMul
       all_goals split_ifs <;> dsimp only
       all_goals try exact hp2.trans hp1
       all_goals split_ifs <;> dsimp only
       all_goals try exact hp2.trans hp1
       all_goals split_ifs <;> dsimp only
       all_goals exact hp2.trans hp1)

theorem calculate_sell_price_graduated (L : Nat → OptimizedCurveParams → Nat)
    (st : Optimized.OptStorage) (cs q : Nat) (p : OptimizedCurveParams) :
    ((Optimized.calculate_sell_price L st cs q p).2).graduated = st.graduated := by
  rcases h1 : Optimized.calculate_price_at_supply L st (cs - q) p with ⟨r1, st1⟩
  have hp1 := calculate_price_at_supply_graduated L st (cs - q) p
  rw [h1] at hp1
  unfold Optimized.calculate_sell_price
  rw [h1]
  split_ifs <;> try rfl
  all_goals cases r1 <;> dsimp only
  all_goals try exact hp1
  all_goals first
    | (unfold chkMul
       split_ifs <;> dsimp only
       all_goals try exact hp1
       all_goals split_ifs <;> dsimp only
       all_goals exact hp1)
    | (rcases h2 : Optimized.calculate_price_at_supply L st1 cs p with ⟨r2, st2⟩
       have hp2 := calculate_price_at_supply_graduated L st1 cs p
       rw [h2] at hp2
       cases r2 <;> dsimp only
       all_goals try exact hp2.trans hp1
       all_goals unfold chkAdd chkMul
       all_goals split_ifs <;> dsimp only
       all_goals try exact hp2.trans hp1
       all_goals split_ifs <;> dsimp only
       all_goals try exact hp2.trans hp1
       all_goals split_ifs <;> dsimp only
       all_goals exact hp2.trans hp1)

/-- C1 witness: on a curve meeting the reserve criterion, with an oracle
whose `add_liquidity` returns zero LP tokens, graduation aborts with the
zero-LP error and the storage is unchanged. -/
theorem amm_graduation_atomic_witness :
    c1State.graduated = 0 ∧
    (AMMIntegration.graduate_to_amm ctx0 0 zeroLpOracle c1State).1 =
      .error "Failed to receive LP tokens from pool" ∧
    (AMMIntegration.graduate_to_amm ctx0 0 zeroLpOracle c1State).2 = c1State :=
  ⟨rfl, by decide,
   amm_graduation_atomic ctx0 0 zeroLpOracle c1State rfl
     "Failed to receive LP tokens from pool" (by decide)⟩

/-- C2 counterexample: the graduated flag does not make every Graduate
dispatch fail.  `optGraduated` is reachable (one `Graduate` dispatch from a
fresh deployment) and has the flag set, yet dispatching `Graduate` again
returns success, not an already-graduated error. -/
theorem opt_graduate_not_one_way_counterexample :
    Optimized.Reachable L0 optGraduated ∧ optGraduated.graduated = 1 ∧
    (Optimized.step L0 .graduate ctx0 optGraduated).1 = .ok () :=
  ⟨Optimized.Reachable.dispatch .graduate ctx0 {} Optimized.Reachable.deployed,
   rfl, rfl⟩

/-- C2 amended: on any storage whose graduated flag is set,
`BondingCurveToken`'s Graduate, BuyTokens and SellTokens, and
`OptimizedBondingCurve`'s BuyTokens and SellTokens, return an
already-graduated error leaving the storage untouched;
`OptimizedBondingCurve`'s Graduate instead returns success while leaving the
storage (flag included) unchanged; and no dispatched message of either
contract ever resets a set flag. -/
theorem graduation_one_way_amended :
    (∀ (o : AmmOracle) (st : CurveStorage), st.graduated ≠ 0 →
       BondingCurveToken.graduate o st = (.error "Already graduated to AMM", st)) ∧
    (∀ (m : Nat) (st : CurveStorage), st.graduated ≠ 0 →
       BondingCurveToken.buy_tokens m st =
         (.error "Bonding curve has graduated to AMM", st)) ∧
    (∀ (a b : Nat) (st : CurveStorage), st.graduated ≠ 0 →
       BondingCurveToken.sell_tokens a b st =
         (.error "Bonding curve has graduated to AMM", st)) ∧
    (∀ (msg : BondingCurveToken.LibMsg) (ctx : Ctx) (o : AmmOracle)
       (st : CurveStorage), st.graduated = 1 →
       (BondingCurveToken.step msg ctx o st).2.graduated = 1) ∧
    (∀ (L : Nat → OptimizedCurveParams → Nat) (ctx : Ctx) (m : Nat)
       (st : Optimized.OptStorage), st.graduated = 1 →
       Optimized.buy_tokens L ctx m st =
         (.error "Bonding curve has graduated to AMM", st)) ∧
    (∀ (L : Nat → OptimizedCurveParams → Nat) (ctx : Ctx) (a b : Nat)
       (st : Optimized.OptStorage), st.graduated = 1 →
       Optimized.sell_tokens L ctx a b st =
         (.error "Bonding curve has graduated to AMM", st)) ∧
    (∀ (ctx : Ctx) (st : Optimized.OptStorage), st.graduated = 1 →
       Optimized.graduate ctx st = (.ok (), st)) ∧
    (∀ (L : Nat → OptimizedCurveParams → Nat) (msg : Optimized.OptMsg)
       (ctx : Ctx) (st : Optimized.OptStorage), st.graduated = 1 →
       (Optimized.step L msg ctx st).2.graduated = 1) := by
  refine ⟨?_, ?_, ?_, ?_, ?_, ?_, ?_, ?_⟩
  · intro o st h
    unfold BondingCurveToken.graduate
    rw [if_pos h]
  · intro m st h
    unfold BondingCurveToken.buy_tokens
    rw [if_pos h]
  · intro a b st h
    unfold BondingCurveToken.sell_tokens
    rw [if_pos h]
  · intro msg ctx o st h
    cases msg with
    | initializeOp a b c d e f g i j =>
        unfold BondingCurveToken.step BondingCurveToken.initialize_op
        dsimp only
        split_ifs <;> simp_all [defaultCtx]
    | buyTokens m =>
        unfold BondingCurveToken.step BondingCurveToken.buy_tokens
        dsimp only
        rw [if_pos (by omega)]
        exact h
    | sellTokens a b =>
        unfold BondingCurveToken.step BondingCurveToken.sell_tokens
        dsimp only
        rw [if_pos (by omega)]
        exact h
    | getBuyQuote a =>
        unfold BondingCurveToken.step BondingCurveToken.get_buy_quote
        dsimp only
        cases st.curve_params <;> simp [BondingCurveToken.parse_params, h]
    | getSellQuote a =>
        unfold BondingCurveToken.step BondingCurveToken.get_sell_quote
        dsimp only
        cases st.curve_params <;> simp [BondingCurveToken.parse_params, h]
    | graduate =>
        unfold BondingCurveToken.step BondingCurveToken.graduate
        dsimp only
        rw [if_pos (by omega)]
        exact h
    | getCurveState =>
        unfold BondingCurveToken.step BondingCurveToken.get_curve_state
        dsimp only
        cases st.curve_params <;> simp [BondingCurveToken.parse_params, h]
    | getName => exact h
    | getSymbol => exact h
    | getTotalSupply => exact h
    | getBaseReserves => exact h
    | getAmmPoolAddress => exact h
    | isGraduated => exact h
  · intro L ctx m st h
    unfold Optimized.buy_tokens
    rw [if_pos h]
  · intro L ctx a b st h
    unfold Optimized.sell_tokens
    rw [if_pos h]
  · intro ctx st h
    unfold Optimized.graduate
    rcases st with ⟨a, b, c, d, e, f, g, pc, ap, dt⟩
    simp only at h
    subst h
    rfl
  · intro L msg ctx st h
    cases msg with
    | initializeOp a b c d e f g i j =>
        unfold Optimized.step Optimized.initialize_op
        dsimp only
        split_ifs <;> try exact h
        all_goals (split <;> try exact h)
        all_goals exact h
    | buyTokens m =>
        unfold Optimized.step Optimized.buy_tokens
        dsimp only
        rw [if_pos h]
        exact h
    | sellTokens a b =>
        unfold Optimized.step Optimized.sell_tokens
        dsimp only
        rw [if_pos h]
        exact h
    | getBuyQuote a =>
        unfold Optimized.step Optimized.get_buy_quote
        dsimp only
        cases st.curve_params with
        | none =>
            simp only [Optimized.get_curve_params]
            rcases hb : Optimized.calculate_buy_price L st st.totalsupply a
                OptimizedCurveParams.default with ⟨r, st1⟩
            have hg := calculate_buy_price_graduated L st st.totalsupply a
              OptimizedCurveParams.default
            rw [hb] at hg
            cases r <;> dsimp only <;> exact hg.trans h
        | some p =>
            simp only [Optimized.get_curve_params]
            rcases hb : Optimized.calculate_buy_price L st st.totalsupply a p with ⟨r, st1⟩
            have hg := calculate_buy_price_graduated L st st.totalsupply a p
            rw [hb] at hg
            cases r <;> dsimp only <;> exact hg.trans h
    | getSellQuote a =>
        unfold Optimized.step Optimized.get_sell_quote
        dsimp only
        cases st.curve_params with
        | none =>
            simp only [Optimized.get_curve_params]
            rcases hb : Optimized.calculate_sell_price L st st.totalsupply a
                OptimizedCurveParams.default with ⟨r, st1⟩
            have hg := calculate_sell_price_graduated L st st.totalsupply a
              OptimizedCurveParams.default
            rw [hb] at hg
            cases r <;> dsimp only <;> exact hg.trans h
        | some p =>
            simp only [Optimized.get_curve_params]
            rcases hb : Optimized.calculate_sell_price L st st.totalsupply a p with ⟨r, st1⟩
            have hg := calculate_sell_price_graduated L st st.totalsupply a p
            rw [hb] at hg
            cases r <;> dsimp only <;> exact hg.trans h
    | graduate => rfl
    | getCurveState => exact h
    | getName => exact h
    | getSymbol => exact h
    | getTotalSupply => exact h
    | getBaseReservesResponse => exact h
    | getAmmPoolAddress => exact h
    | isGraduatedResponse => exact h
    | getData => exact h

theorem cacheOK_empty (L : Nat → OptimizedCurveParams → Nat)
    (p : OptimizedCurveParams) : Optimized.CacheOK L p {} := by
  intro k v hkv
  simp [Optimized.cacheGet] at hkv

theorem cacheOK_preserved (L : Nat → OptimizedCurveParams → Nat)
    (p : OptimizedCurveParams) (st : Optimized.OptStorage) (s : Nat)
    (h : Optimized.CacheOK L p st) :
    Optimized.CacheOK L p (Optimized.calculate_price_at_supply L st s p).2 := by
  unfold Optimized.calculate_price_at_supply
  split
  · exact h
  · rename_i hs
    split
    · exact h
    · split
      · exact h
      · rename_i price heq
        intro k v hkv
        unfold Optimized.set_cached_price Optimized.cacheGet at hkv
        split_ifs at hkv with hk
        · refine ⟨s, hs, hk, ?_⟩
          rw [heq, Option.some.inj hkv]
        · exact h k v hkv

theorem cacheOK_runQueries (L : Nat → OptimizedCurveParams → Nat)
    (p : OptimizedCurveParams) (qs : List Nat) (st : Optimized.OptStorage)
    (h : Optimized.CacheOK L p st) :
    Optimized.CacheOK L p (Optimized.runQueries L p qs st) := by
  induction qs generalizing st with
  | nil => exact h
  | cons q rest ih =>
      exact ih _ (cacheOK_preserved L p st q h)

/-- C2 witness: on concrete graduated states, the lib-token operations
reject with already-graduated errors and the optimized Graduate reports
success without changing the storage. -/
theorem graduation_one_way_amended_witness :
    BondingCurveToken.buy_tokens 5 libGraduated =
      (.error "Bonding curve has graduated to AMM", libGraduated) ∧
    BondingCurveToken.sell_tokens 5 0 libGraduated =
      (.error "Bonding curve has graduated to AMM", libGraduated) ∧
    BondingCurveToken.graduate happyOracle libGraduated =
      (.error "Already graduated to AMM", libGraduated) ∧
    Optimized.buy_tokens L0 ctx0 1 optGraduated =
      (.error "Bonding curve has graduated to AMM", optGraduated) ∧
    Optimized.graduate ctx0 optGraduated = (.ok (), optGraduated) :=
  ⟨graduation_one_way_amended.2.1 5 libGraduated (by decide),
   graduation_one_way_amended.2.2.1 5 0 libGraduated (by decide),
   graduation_one_way_amended.1 happyOracle libGraduated (by decide),
   graduation_one_way_amended.2.2.2.2.1 L0 ctx0 1 optGraduated (by decide),
   graduation_one_way_amended.2.2.2.2.2.2.1 ctx0 optGraduated (by decide)⟩

/-- C3 counterexample: a cached value is not always bit-identical to the
uncached computation for the queried supply.  After querying supply 100 (which
caches its price under bucket 0), querying supply 101 returns the cached price
of supply 100, which differs from the uncached computation at 101. -/
theorem price_cache_not_pointwise_counterexample :
    (Optimized.calculate_price_at_supply L0 cacheAfter100 101
        OptimizedCurveParams.default).1 = .ok priceAt100 ∧
    Optimized.optimized_price_calculation L0 101 OptimizedCurveParams.default ≠
      .ok priceAt100 := by
  constructor
  · decide
  · decide

/-- C3 amended: the price cache is a bucket-level memo: every cache entry,
and hence every cached value `calculate_price_at_supply` returns, is
bit-identical to the uncached computation `optimized_price_calculation` at
some nonzero supply of the same 1000-bucket — the supply at which it was
first computed — but not necessarily at the queried supply itself. -/
theorem price_cache_bucket_memoization (L : Nat → OptimizedCurveParams → Nat)
    (p : OptimizedCurveParams) :
    (∀ qs : List Nat, Optimized.CacheOK L p (Optimized.runQueries L p qs {})) ∧
    (∀ (st : Optimized.OptStorage) (s v : Nat),
       Optimized.CacheOK L p st →
       (Optimized.calculate_price_at_supply L st s p).1 = .ok v →
       (s = 0 ∧ v = p.base_price) ∨
       ∃ t, t ≠ 0 ∧ t / 1000 * 1000 = s / 1000 * 1000 ∧
         Optimized.optimized_price_calculation L t p = .ok v) := by
  constructor
  · intro qs
    exact cacheOK_runQueries L p qs {} (cacheOK_empty L p)
  · intro st s v h hok
    unfold Optimized.calculate_price_at_supply at hok
    split at hok
    · rename_i hs
      exact Or.inl ⟨hs, (Except.ok.inj hok).symm⟩
    · rename_i hs
      split at hok
      · rename_i cached heq
        unfold Optimized.get_cached_price at heq
        obtain ⟨t, ht, hbucket, hval⟩ := h _ _ heq
        refine Or.inr ⟨t, ht, hbucket, ?_⟩
        rw [hval, Except.ok.inj hok]
      · split at hok
        · simp at hok
        · rename_i price heq
          exact Or.inr ⟨s, hs, rfl, by rw [heq, Except.ok.inj hok]⟩

/-- C3 witness: the amended statement applied after querying supply 100 and
then 101: the hit returns the value cached for supply 100, which is the
uncached computation at the same-bucket supply 100. -/
theorem price_cache_bucket_memoization_witness :
    Optimized.CacheOK L0 OptimizedCurveParams.default cacheAfter100 ∧
    (Optimized.calculate_price_at_supply L0 cacheAfter100 101
        OptimizedCurveParams.default).1 = .ok priceAt100 ∧
    ((101 = 0 ∧ priceAt100 = OptimizedCurveParams.default.base_price) ∨
     ∃ t, t ≠ 0 ∧ t / 1000 * 1000 = 101 / 1000 * 1000 ∧
       Optimized.optimized_price_calculation L0 t OptimizedCurveParams.default =
         .ok priceAt100) :=
  ⟨(price_cache_bucket_memoization L0 OptimizedCurveParams.default).1 [100],
   by decide,
   (price_cache_bucket_memoization L0 OptimizedCurveParams.default).2
     cacheAfter100 101 priceAt100
     ((price_cache_bucket_memoization L0 OptimizedCurveParams.default).1 [100])
     (by decide)⟩

/-- C5 counterexample: the sell-price operation of the optimized curve does
not return `theoretical * 98 / 100`: selling 5 of 10 under default
parameters pays 9956210 (a 1% per-unit discount applied before multiplying
by the quantity), while the 2%-after-integration value over `[5, 10)` is
13290095. -/
theorem opt_sell_discount_counterexample :
    (Optimized.calculate_sell_price L0 {} 10 5 OptimizedCurveParams.default).1 =
      .ok 9956210 ∧
    c5_theoretical * 98 / 100 = 13290095 ∧ (9956210 : Nat) ≠ 13290095 := by
  refine ⟨by decide, by decide, by decide⟩

/-- C5 amended (restricted to `CurveCalculator::calculate_sell_price`, the
only sell path satisfying it): for `0 < quantity ≤ current_supply`, whenever
the theoretical return — the exact or trapezoidal integral of
`price_at_supply` over `[current_supply - quantity, current_supply)` —
computes to `t` and `t * 98` fits in a `u128`, the sell price is exactly
`t * 98 / 100`: a fixed 2% discount applied to the already-integrated total.
The optimized contract's sell path instead applies a 1% discount before
multiplying by the quantity. -/
theorem sell_discount_after_integration (cs q : Nat) (p : CurveParams) (t : Nat)
    (hq : 0 < q) (hle : q ≤ cs)
    (ht : theoretical_sell_return cs q p = .ok t) (hw : t * 98 < U128) :
    CurveCalculator.calculate_sell_price cs q p = .ok (t * 98 / 100) := by
  unfold CurveCalculator.calculate_sell_price
  rw [if_neg (by omega), if_neg (by omega)]
  show (match theoretical_sell_return cs q p with
        | .error s => (.error s : Except String Nat)
        | .ok t2 => .ok (t2 * 98 % U128 / 100)) = _
  rw [ht]
  dsimp only
  rw [Nat.mod_eq_of_lt hw]

/-- C5 witness: selling 5 of 10 with default parameters through
`CurveCalculator` pays the integrated total discounted by 2% afterwards. -/
theorem sell_discount_after_integration_witness :
    theoretical_sell_return 10 5 CurveParams.default = .ok 13561334 ∧
    CurveCalculator.calculate_sell_price 10 5 CurveParams.default =
      .ok (13561334 * 98 / 100) :=
  ⟨by decide,
   sell_discount_after_integration 10 5 CurveParams.default 13561334
     (by decide) (by decide) (by decide) (by decide)⟩

theorem powLoop_last (fuel res bp : Nat) (h1 : res * bp < U128)
    (h2 : ¬ MAX_PRICE < res * bp / PRECISION) (h3 : ¬ MAX_PRICE < bp) :
    CurveCalculator.powLoop (fuel + 1) res bp 1 = .ok (res * bp / PRECISION) := by
  show (if (1 : Nat) = 0 then Except.ok res
        else
          match (if 1 % 2 = 1 then CurveCalculator.stepMul res bp else .ok res),
                (if 1 < 1 then CurveCalculator.stepMul bp bp else .ok bp) with
          | .ok r, .ok b =>
              if MAX_PRICE < r ∨ MAX_PRICE < b then .ok MAX_PRICE
              else CurveCalculator.powLoop fuel r b (1 / 2)
          | .error s, _ => .error s
          | .ok _, .error s => .error s) = _
  rw [if_neg (by norm_num)]
  rw [if_pos (by norm_num), if_neg (by norm_num)]
  unfold CurveCalculator.stepMul
  rw [if_pos h1]
  dsimp only
  rw [if_neg (by push_neg; exact ⟨not_lt.mp h2, not_lt.mp h3⟩)]
  cases fuel <;> rfl

/-- C7 counterexample: `fixed_point_power` does not match the direct
repeated-multiplication reference at every exponent up to 20: at base
1000015812, exponent 4, denominator 10^9 (no clamp anywhere near), the
binary exponentiation gives 1000063249 while the direct reference gives
1000063248. -/
theorem fixed_point_power_not_direct_counterexample :
    CurveCalculator.fixed_point_power 1000015812 4 1000000000 = .ok 1000063249 ∧
    CurveCalculator.direct_power_reference 1000015812 4 1000000000 = 1000063248 ∧
    (1000063249 : Nat) ≠ 1000063248 :=
  ⟨by decide, by decide, by decide⟩

/-- C7 amended: `fixed_point_power(base, 0, den) = PRECISION` for all
positive base and denominator, and the binary exponentiation agrees exactly
with the direct repeated-multiplication reference for exponents up to 3
(given a scaled base small enough that no clamp or overflow triggers); from
exponent 4 on, the two can differ by one unit in the last place because the
squaring path truncates differently. -/
theorem fixed_point_power_spec :
    (∀ b d : Nat, 0 < b → 0 < d →
       CurveCalculator.fixed_point_power b 0 d = .ok PRECISION) ∧
    (∀ b d e : Nat, 0 < d → b * PRECISION < U128 →
       b * PRECISION / d ≤ 10 ^ 15 → e ≤ 3 →
       CurveCalculator.fixed_point_power b e d =
         .ok (CurveCalculator.direct_power_reference b e d)) := by
  constructor
  · intro b d hb hd
    rfl
  · intro b d e hd hbP hsmall he
    have hPpos : 0 < PRECISION := by norm_num [PRECISION]
    set c := b * PRECISION / d with hcdef
    have hcP : PRECISION * c < U128 := by
      calc PRECISION * c ≤ PRECISION * 10 ^ 15 :=
            Nat.mul_le_mul_left PRECISION hsmall
        _ < U128 := by norm_num [PRECISION, U128]
    have hcc : c * c < U128 := by
      calc c * c ≤ 10 ^ 15 * 10 ^ 15 := Nat.mul_le_mul hsmall hsmall
        _ < U128 := by norm_num [U128]
    have hcMAX : ¬ MAX_PRICE < c := by
      rw [not_lt]
      calc c ≤ 10 ^ 15 := hsmall
        _ ≤ MAX_PRICE := by norm_num [MAX_PRICE, U128]
    have hPcP : PRECISION * c / PRECISION = c := Nat.mul_div_cancel_left c hPpos
    have hccP_le : c * c / PRECISION ≤ 10 ^ 21 := by
      rw [Nat.div_le_iff_le_mul_add_pred hPpos]
      calc c * c ≤ 10 ^ 15 * 10 ^ 15 := Nat.mul_le_mul hsmall hsmall
        _ ≤ 10 ^ 9 * 10 ^ 21 + (10 ^ 9 - 1) := by norm_num
        _ = PRECISION * 10 ^ 21 + (PRECISION - 1) := by norm_num [PRECISION]
    have hccMAX : ¬ MAX_PRICE < c * c / PRECISION := by
      rw [not_lt]
      calc c * c / PRECISION ≤ 10 ^ 21 := hccP_le
        _ ≤ MAX_PRICE := by norm_num [MAX_PRICE, U128]
    interval_cases e
    · rfl
    · unfold CurveCalculator.fixed_point_power
      rw [if_neg (by norm_num), if_neg (by omega), Nat.mod_eq_of_lt hbP, ← hcdef]
      rw [show (1 : Nat) = 0 + 1 from rfl,
          powLoop_last 0 PRECISION c hcP (by rw [hPcP]; exact hcMAX) hcMAX]
      show _ = Except.ok (PRECISION * (b * PRECISION / d) / PRECISION)
      rw [← hcdef, hPcP]
    · unfold CurveCalculator.fixed_point_power
      rw [if_neg (by norm_num), if_neg (by omega), Nat.mod_eq_of_lt hbP, ← hcdef]
      show (if (2 : Nat) = 0 then Except.ok PRECISION
            else
              match (if 2 % 2 = 1 then CurveCalculator.stepMul PRECISION c
                     else .ok PRECISION),
                    (if 1 < 2 then CurveCalculator.stepMul c c else .ok c) with
              | .ok r, .ok b2 =>
                  if MAX_PRICE < r ∨ MAX_PRICE < b2 then .ok MAX_PRICE
                  else CurveCalculator.powLoop 1 r b2 (2 / 2)
              | .error s, _ => .error s
              | .ok _, .error s => .error s) = _
      rw [if_neg (by norm_num), if_neg (by norm_num), if_pos (by norm_num)]
      unfold CurveCalculator.stepMul
      rw [if_pos hcc]
      dsimp only
      rw [if_neg (by
        push_neg
        refine ⟨by norm_num [MAX_PRICE, PRECISION, U128], not_lt.mp hccMAX⟩)]
      have hP2 : PRECISION * (c * c / PRECISION) < U128 := by
        calc PRECISION * (c * c / PRECISION) ≤ PRECISION * 10 ^ 21 :=
              Nat.mul_le_mul_left PRECISION hccP_le
          _ < U128 := by norm_num [PRECISION, U128]
      rw [show (2 : Nat) / 2 = 1 from rfl,
          powLoop_last 0 PRECISION (c * c / PRECISION) hP2
            (by rw [Nat.mul_div_cancel_left _ hPpos]; exact hccMAX) hccMAX]
      show _ = Except.ok (PRECISION * (b * PRECISION / d) / PRECISION *
        (b * PRECISION / d) / PRECISION)
      rw [← hcdef, hPcP, Nat.mul_div_cancel_left _ hPpos]
    · unfold CurveCalculator.fixed_point_power
      rw [if_neg (by norm_num), if_neg (by omega), Nat.mod_eq_of_lt hbP, ← hcdef]
      show (if (3 : Nat) = 0 then Except.ok PRECISION
            else
              match (if 3 % 2 = 1 then CurveCalculator.stepMul PRECISION c
                     else .ok PRECISION),
                    (if 1 < 3 then CurveCalculator.stepMul c c else .ok c) with
              | .ok r, .ok b2 =>
                  if MAX_PRICE < r ∨ MAX_PRICE < b2 then .ok MAX_PRICE
                  else CurveCalculator.powLoop 2 r b2 (3 / 2)
              | .error s, _ => .error s
              | .ok _, .error s => .error s) = _
      rw [if_neg (by norm_num), if_pos (by norm_num), if_pos (by norm_num)]
      unfold CurveCalculator.stepMul
      rw [if_pos hcP, if_pos hcc]
      dsimp only
      rw [if_neg (by
        push_neg
        refine ⟨?_, not_lt.mp hccMAX⟩
        rw [hPcP]
        exact not_lt.mp hcMAX)]
      have hcbp : c * (c * c / PRECISION) < U128 := by
        calc c * (c * c / PRECISION) ≤ 10 ^ 15 * 10 ^ 21 :=
              Nat.mul_le_mul hsmall hccP_le
          _ < U128 := by norm_num [U128]
      have hres3 : ¬ MAX_PRICE < c * (c * c / PRECISION) / PRECISION := by
        rw [not_lt, Nat.div_le_iff_le_mul_add_pred hPpos]
        calc c * (c * c / PRECISION) ≤ 10 ^ 15 * 10 ^ 21 :=
              Nat.mul_le_mul hsmall hccP_le
          _ ≤ PRECISION * MAX_PRICE + (PRECISION - 1) := by
              norm_num [PRECISION, MAX_PRICE, U128]
      rw [hPcP, show (3 : Nat) / 2 = 1 from rfl,
          show (2 : Nat) = 1 + 1 from rfl,
          powLoop_last 1 c (c * c / PRECISION) hcbp hres3 hccMAX]
      show _ = Except.ok (PRECISION * (b * PRECISION / d) / PRECISION *
        (b * PRECISION / d) / PRECISION * (b * PRECISION / d) / PRECISION)
      rw [← hcdef, hPcP, Nat.mul_comm c (c * c / PRECISION)]

/-- C7 witness: the amended statement exercised at base 5 (zero exponent)
and at the curve's own scaled base 11500/10000 with exponent 3. -/
theorem fixed_point_power_spec_witness :
    CurveCalculator.fixed_point_power 5 0 7 = .ok PRECISION ∧
    CurveCalculator.fixed_point_power 11500 3 10000 =
      .ok (CurveCalculator.direct_power_reference 11500 3 10000) :=
  ⟨fixed_point_power_spec.1 5 7 (by decide) (by decide),
   fixed_point_power_spec.2 11500 10000 3 (by decide) (by decide) (by decide)
     (by decide)⟩

theorem powLoop_zero_e (fuel res bp : Nat) :
    CurveCalculator.powLoop fuel res bp 0 = .ok res := by
  cases fuel <;> rfl

theorem stepMul_ok (a b v : Nat) (h : CurveCalculator.stepMul a b = .ok v) :
    a * b < U128 ∧ v = a * b / PRECISION := by
  unfold CurveCalculator.stepMul at h
  split_ifs at h with hlt
  exact ⟨hlt, (Except.ok.inj h).symm⟩

theorem bit_result_ok (e res bp r : Nat)
    (h : (if e % 2 = 1 then CurveCalculator.stepMul res bp else .ok res) = .ok r) :
    (e % 2 = 1 ∧ res * bp < U128 ∧ r = res * bp / PRECISION) ∨
    (e % 2 ≠ 1 ∧ r = res) := by
  split_ifs at h with hbit
  · obtain ⟨h1, h2⟩ := stepMul_ok res bp r h
    exact Or.inl ⟨hbit, h1, h2⟩
  · exact Or.inr ⟨hbit, (Except.ok.inj h).symm⟩

theorem sq_result_ok (e bp b : Nat)
    (h : (if 1 < e then CurveCalculator.stepMul bp bp else .ok bp) = .ok b) :
    (1 < e ∧ bp * bp < U128 ∧ b = bp * bp / PRECISION) ∨ (¬ 1 < e ∧ b = bp) := by
  split_ifs at h with hsq
  · obtain ⟨h1, h2⟩ := stepMul_ok bp bp b h
    exact Or.inl ⟨hsq, h1, h2⟩
  · exact Or.inr ⟨hsq, (Except.ok.inj h).symm⟩

theorem powLoop_succ_ok (n res bp e v : Nat) (he : e ≠ 0)
    (h : CurveCalculator.powLoop (n + 1) res bp e = .ok v) :
    ∃ r b, (if e % 2 = 1 then CurveCalculator.stepMul res bp else .ok res) = .ok r ∧
      (if 1 < e then CurveCalculator.stepMul bp bp else .ok bp) = .ok b ∧
      ((MAX_PRICE < r ∨ MAX_PRICE < b) ∧ v = MAX_PRICE ∨
       ¬ (MAX_PRICE < r ∨ MAX_PRICE < b) ∧
         CurveCalculator.powLoop n r b (e / 2) = .ok v) := by
  unfold CurveCalculator.powLoop at h
  rw [if_neg he] at h
  rcases h1 : (if e % 2 = 1 then CurveCalculator.stepMul res bp else .ok res) with s | r
  · rw [h1] at h
    rcases h2 : (if 1 < e then CurveCalculator.stepMul bp bp else .ok bp) with s2 | b <;>
      rw [h2] at h <;> simp at h
  · rw [h1] at h
    rcases h2 : (if 1 < e then CurveCalculator.stepMul bp bp else .ok bp) with s2 | b
    · rw [h2] at h
      simp at h
    · rw [h2] at h
      dsimp only at h
      refine ⟨r, b, rfl, rfl, ?_⟩
      split_ifs at h with hcap
      · exact Or.inl ⟨hcap, (Except.ok.inj h).symm⟩
      · exact Or.inr ⟨hcap, h⟩

theorem powLoop_ok_le (fuel : Nat) :
    ∀ res bp e v, res ≤ MAX_PRICE →
      CurveCalculator.powLoop fuel res bp e = .ok v → v ≤ MAX_PRICE := by
  induction fuel with
  | zero =>
    intro res bp e v hres h
    unfold CurveCalculator.powLoop at h
    split_ifs at h
    injection h with h
    subst h
    exact hres
  | succ n ih =>
    intro res bp e v hres h
    by_cases he : e = 0
    · rw [he, powLoop_zero_e] at h
      injection h with h
      subst h
      exact hres
    · obtain ⟨r, b, hr, hb, hrest⟩ := powLoop_succ_ok n res bp e v he h
      rcases hrest with ⟨-, hv⟩ | ⟨hcap, hrec⟩
      · exact Nat.le_of_eq hv
      · exact ih r b (e / 2) v (Nat.le_of_not_lt fun hlt => hcap (Or.inl hlt)) hrec

theorem powLoop_ok_ge (fuel : Nat) :
    ∀ res bp e v, PRECISION ≤ bp → res ≤ MAX_PRICE →
      CurveCalculator.powLoop fuel res bp e = .ok v → res ≤ v := by
  induction fuel with
  | zero =>
    intro res bp e v hbp hres h
    unfold CurveCalculator.powLoop at h
    split_ifs at h
    injection h with h
    exact Nat.le_of_eq h
  | succ n ih =>
    intro res bp e v hbp hres h
    by_cases he : e = 0
    · rw [he, powLoop_zero_e] at h
      injection h with h
      exact Nat.le_of_eq h
    · obtain ⟨r, b, hr, hb, hrest⟩ := powLoop_succ_ok n res bp e v he h
      have hrr : res ≤ r := by
        rcases bit_result_ok e res bp r hr with ⟨-, -, hre⟩ | ⟨-, hre⟩
        · subst hre
          rw [Nat.le_div_iff_mul_le (by decide : 0 < PRECISION)]
          exact Nat.mul_le_mul_left res hbp
        · exact Nat.le_of_eq hre.symm
      have hbb : PRECISION ≤ b := by
        rcases sq_result_ok e bp b hb with ⟨-, -, hbe⟩ | ⟨-, hbe⟩
        · subst hbe
          rw [Nat.le_div_iff_mul_le (by decide : 0 < PRECISION)]
          exact Nat.mul_le_mul hbp hbp
        · exact hbe ▸ hbp
      rcases hrest with ⟨-, hv⟩ | ⟨hcap, hrec⟩
      · rw [hv]
        exact le_trans hres (le_refl _)
      · have hrM : r ≤ MAX_PRICE := Nat.le_of_not_lt fun hlt => hcap (Or.inl hlt)
        exact le_trans hrr (ih r b (e / 2) v hbb hrM hrec)

theorem powLoop_mono_res (fuel2 : Nat) :
    ∀ fuel1 x y bp e v1 v2, x ≤ y →
      CurveCalculator.powLoop fuel1 x bp e = .ok v1 →
      CurveCalculator.powLoop fuel2 y bp e = .ok v2 → v1 ≤ v2 := by
  induction fuel2 with
  | zero =>
    intro fuel1 x y bp e v1 v2 hxy h1 h2
    unfold CurveCalculator.powLoop at h2
    split_ifs at h2 with he
    injection h2 with h2
    subst he
    rw [powLoop_zero_e] at h1
    injection h1 with h1
    subst h1
    subst h2
    exact hxy
  | succ n ih =>
    intro fuel1 x y bp e v1 v2 hxy h1 h2
    by_cases he : e = 0
    · subst he
      rw [powLoop_zero_e] at h1 h2
      injection h1 with h1
      injection h2 with h2
      subst h1
      subst h2
      exact hxy
    · cases fuel1 with
      | zero =>
        unfold CurveCalculator.powLoop at h1
        rw [if_neg he] at h1
        simp at h1
      | succ m =>
        obtain ⟨r1, b1, hr1, hb1, hrest1⟩ := powLoop_succ_ok m x bp e v1 he h1
        obtain ⟨r2, b2, hr2, hb2, hrest2⟩ := powLoop_succ_ok n y bp e v2 he h2
        have hbeq : b1 = b2 := by
          rw [hb1] at hb2
          injection hb2 with hb2
        subst hbeq
        have hr12 : r1 ≤ r2 := by
          rcases bit_result_ok e x bp r1 hr1 with ⟨hb, -, he1⟩ | ⟨hb, he1⟩ <;>
            rcases bit_result_ok e y bp r2 hr2 with ⟨hb3, -, he2⟩ | ⟨hb3, he2⟩
          · subst he1
            subst he2
            exact Nat.div_le_div_right (Nat.mul_le_mul_right bp hxy)
          · exact absurd hb hb3
          · exact absurd hb3 hb
          · subst he1
            subst he2
            exact hxy
        rcases hrest2 with ⟨hcap2, hv2⟩ | ⟨hcap2, hrec2⟩
        · subst hv2
          rcases hrest1 with ⟨-, hv1⟩ | ⟨hcap1, hrec1⟩
          · exact Nat.le_of_eq hv1
          · exact powLoop_ok_le m r1 b1 (e / 2) v1
              (Nat.le_of_not_lt fun hlt => hcap1 (Or.inl hlt)) hrec1
        · rcases hrest1 with ⟨hcap1, hv1⟩ | ⟨hcap1, hrec1⟩
          · exact absurd (hcap1.imp (fun h => lt_of_lt_of_le h hr12) id) hcap2
          · exact ih m r1 r2 b1 (e / 2) v1 v2 hr12 hrec1 hrec2

theorem bit_result_ge (e res bp r : Nat) (hbp : PRECISION ≤ bp)
    (hr : (if e % 2 = 1 then CurveCalculator.stepMul res bp else .ok res) = .ok r) :
    res ≤ r := by
  rcases bit_result_ok e res bp r hr with ⟨-, -, hre⟩ | ⟨-, hre⟩
  · subst hre
    rw [Nat.le_div_iff_mul_le (by decide : 0 < PRECISION)]
    exact Nat.mul_le_mul_left res hbp
  · exact Nat.le_of_eq hre.symm

theorem sq_result_ge (e bp b : Nat) (hbp : PRECISION ≤ bp)
    (hb : (if 1 < e then CurveCalculator.stepMul bp bp else .ok bp) = .ok b) :
    PRECISION ≤ b := by
  rcases sq_result_ok e bp b hb with ⟨-, -, hbe⟩ | ⟨-, hbe⟩
  · subst hbe
    rw [Nat.le_div_iff_mul_le (by decide : 0 < PRECISION)]
    exact Nat.mul_le_mul hbp hbp
  · exact hbe ▸ hbp

theorem powLoop_lb (fuel : Nat) :
    ∀ res bp e v, PRECISION ≤ bp → 1 ≤ e → res ≤ MAX_PRICE →
      CurveCalculator.powLoop fuel res bp e = .ok v →
      min MAX_PRICE (res * bp / PRECISION) ≤ v := by
  induction fuel with
  | zero =>
    intro res bp e v hbp he hres h
    unfold CurveCalculator.powLoop at h
    rw [if_neg (by omega : ¬ e = 0)] at h
    simp at h
  | succ n ih =>
    intro res bp e v hbp he hres h
    obtain ⟨r, b, hr, hb, hrest⟩ := powLoop_succ_ok n res bp e v (by omega) h
    by_cases hbit : e % 2 = 1
    · have hre : r = res * bp / PRECISION := by
        rcases bit_result_ok e res bp r hr with ⟨-, -, h3⟩ | ⟨hb2, -⟩
        · exact h3
        · exact absurd hbit hb2
      rcases hrest with ⟨-, hv⟩ | ⟨hcap, hrec⟩
      · rw [hv]
        exact min_le_left _ _
      · have hrM : r ≤ MAX_PRICE := Nat.le_of_not_lt fun hlt => hcap (Or.inl hlt)
        have hbP : PRECISION ≤ b := sq_result_ge e bp b hbp hb
        have hge := powLoop_ok_ge n r b (e / 2) v hbP hrM hrec
        rw [hre] at hge
        exact le_trans (min_le_right _ _) hge
    · have hre : r = res := by
        rcases bit_result_ok e res bp r hr with ⟨hb2, -, -⟩ | ⟨-, h3⟩
        · exact absurd hb2 hbit
        · exact h3
      have h2e : 2 ≤ e := by omega
      have hbe : b = bp * bp / PRECISION := by
        rcases sq_result_ok e bp b hb with ⟨-, -, h3⟩ | ⟨h3, -⟩
        · exact h3
        · exact absurd (by omega : 1 < e) h3
      have hbpb : bp ≤ b := by
        rw [hbe, Nat.le_div_iff_mul_le (by decide : 0 < PRECISION)]
        exact Nat.mul_le_mul_left bp hbp
      rcases hrest with ⟨-, hv⟩ | ⟨hcap, hrec⟩
      · rw [hv]
        exact min_le_left _ _
      · have hrM : r ≤ MAX_PRICE := Nat.le_of_not_lt fun hlt => hcap (Or.inl hlt)
        have h1e2 : 1 ≤ e / 2 := by omega
        have hPb : PRECISION ≤ b := le_trans hbp hbpb
        have hih := ih r b (e / 2) v hPb h1e2 hrM hrec
        refine le_trans ?_ hih
        refine min_le_min (le_refl _) ?_
        rw [hre]
        exact Nat.div_le_div_right (Nat.mul_le_mul_left res hbpb)

theorem powLoop_lb2 (n res bp e v : Nat) (hbp : PRECISION ≤ bp) (h2e : 2 ≤ e)
    (hres : res ≤ MAX_PRICE)
    (h : CurveCalculator.powLoop (n + 1) res bp e = .ok v) :
    min MAX_PRICE (res * (bp * bp / PRECISION) / PRECISION) ≤ v := by
  obtain ⟨r, b, hr, hb, hrest⟩ := powLoop_succ_ok n res bp e v (by omega) h
  have hbe : b = bp * bp / PRECISION := by
    rcases sq_result_ok e bp b hb with ⟨-, -, h3⟩ | ⟨h3, -⟩
    · exact h3
    · exact absurd (by omega : 1 < e) h3
  have hresr : res ≤ r := bit_result_ge e res bp r hbp hr
  rcases hrest with ⟨-, hv⟩ | ⟨hcap, hrec⟩
  · rw [hv]
    exact min_le_left _ _
  · have hrM : r ≤ MAX_PRICE := Nat.le_of_not_lt fun hlt => hcap (Or.inl hlt)
    have h1e2 : 1 ≤ e / 2 := by omega
    have hPb : PRECISION ≤ b := by
      rw [hbe, Nat.le_div_iff_mul_le (by decide : 0 < PRECISION)]
      exact Nat.mul_le_mul hbp hbp
    have hlb := powLoop_lb n r b (e / 2) v hPb h1e2 hrM hrec
    refine le_trans ?_ hlb
    refine min_le_min (le_refl _) ?_
    rw [hbe]
    exact Nat.div_le_div_right (Nat.mul_le_mul_right _ hresr)

theorem div_up_num (a : Nat) : a ≤ 1000000000 * (a / PRECISION) + 999999999 := by
  simp only [PRECISION]
  omega

theorem div_low_num (a : Nat) : 1000000000 * (a / PRECISION) ≤ a := by
  simp only [PRECISION]
  omega

theorem div_mul_le_num (a : Nat) : a / PRECISION * 1000000000 ≤ a := by
  simp only [PRECISION]
  omega

theorem arith_inv_01 (x y c y2 c2 : Nat) (hk : 10000 ≤ c) (hyy2 : y ≤ y2) (hcc2 : c ≤ c2)
    (hinv : x * 1000000000 + 10000 * y ≤ y * c) :
    x * 1000000000 + 10000 * y2 ≤ y2 * c2 := by
  nlinarith [hinv, Nat.mul_le_mul hyy2 hk, hyy2, hcc2, hk]

theorem arith_inv_10 (x y c x2 c2 : Nat)
    (hc : 1000100000 ≤ c) (hy : 1000000000 ≤ y)
    (hinv : x * 1000000000 + 10000 * y ≤ y * c)
    (hx2 : x2 * 1000000000 ≤ x * c)
    (hc2u : c * c ≤ 1000000000 * c2 + 999999999) :
    x2 * 1000000000 + 10000 * y ≤ y * c2 := by
  nlinarith [Nat.mul_le_mul_right c hinv, Nat.mul_le_mul_left y hc2u,
    Nat.mul_le_mul_right 1000000000 hx2, Nat.mul_le_mul_left y hc]

theorem arith_inv_11 (x y c x2 y2 c2 : Nat)
    (hc : 1000100000 ≤ c) (hy : 1000000000 ≤ y)
    (hinv : x * 1000000000 + 10000 * y ≤ y * c)
    (hx2 : x2 * 1000000000 ≤ x * c)
    (hy2l : y * c ≤ 1000000000 * y2 + 999999999)
    (hy2u : 1000000000 * y2 ≤ y * c)
    (hc2l : 1000000000 * c2 ≤ c * c)
    (hc2u : c * c ≤ 1000000000 * c2 + 999999999) :
    x2 * 1000000000 + 10000 * y2 ≤ y2 * c2 := by
  have hPc : (1000000000 : Nat) ≤ c := by omega
  nlinarith [Nat.mul_le_mul_right 1000000000 (Nat.mul_le_mul_right c hinv),
    Nat.mul_le_mul hy2l hc2u,
    Nat.mul_le_mul_right (1000000000 * 1000000000) hx2,
    hy2u, hc2l,
    Nat.mul_le_mul_left (y * c * c) hc,
    Nat.mul_le_mul_left (y * c) hPc,
    Nat.mul_le_mul_left (c * c) hy,
    Nat.mul_le_mul (Nat.mul_le_mul hy hPc) hPc]

theorem arith_xc_le_yc2 (x y c c2 : Nat)
    (hPc : 1000000000 ≤ c)
    (hinv : x * 1000000000 + 10000 * y ≤ y * c)
    (hc2u : c * c ≤ 1000000000 * c2 + 999999999) :
    x * c ≤ y * c2 := by
  nlinarith [Nat.mul_le_mul_right c hinv, Nat.mul_le_mul_left y hc2u,
    Nat.mul_le_mul_left y hPc]

theorem arith_same_half (x y c y2 : Nat)
    (hinv : x * 1000000000 + 10000 * y ≤ y * c)
    (hy2l : y * c ≤ 1000000000 * y2 + 999999999) :
    x ≤ y2 := by
  have h1 : x * 1000000000 < (y2 + 1) * 1000000000 := by linarith
  exact Nat.le_of_lt_succ (lt_of_mul_lt_mul_right h1 (Nat.zero_le _))

theorem arith_c2_margin (c : Nat) (hc : 1000100000 ≤ c) :
    1000100000 ≤ c * c / 1000000000 := by
  rw [Nat.le_div_iff_mul_le (by norm_num)]
  nlinarith [Nat.mul_le_mul hc hc]

theorem stepMul_P_P : CurveCalculator.stepMul PRECISION PRECISION = .ok PRECISION := by
  decide

theorem powLoop_const_P (fuel : Nat) :
    ∀ e, e ≤ fuel → CurveCalculator.powLoop fuel PRECISION PRECISION e = .ok PRECISION := by
  induction fuel with
  | zero =>
    intro e he
    have : e = 0 := by omega
    subst this
    rfl
  | succ n ih =>
    intro e he
    by_cases he0 : e = 0
    · subst he0
      exact powLoop_zero_e _ _ _
    · unfold CurveCalculator.powLoop
      rw [if_neg he0]
      split_ifs <;>
        simp only [stepMul_P_P] <;>
        rw [if_neg (by decide : ¬ (MAX_PRICE < PRECISION ∨ MAX_PRICE < PRECISION))] <;>
        exact ih (e / 2) (by omega)

theorem powLoop_mono_exp (fuel2 : Nat) :
    ∀ fuel1 x y c e1 e2 v1 v2,
      1000100000 ≤ c →
      x * 1000000000 + 10000 * y ≤ y * c →
      1000000000 ≤ y → x ≤ MAX_PRICE → y ≤ MAX_PRICE →
      1 ≤ e1 → e1 < e2 →
      CurveCalculator.powLoop fuel1 x c e1 = .ok v1 →
      CurveCalculator.powLoop fuel2 y c e2 = .ok v2 →
      v1 ≤ v2 := by
  induction fuel2 with
  | zero =>
    intro fuel1 x y c e1 e2 v1 v2 hc hinv hy hxM hyM he1 he12 h1 h2
    unfold CurveCalculator.powLoop at h2
    rw [if_neg (by omega : ¬ e2 = 0)] at h2
    simp at h2
  | succ n ih =>
    intro fuel1 x y c e1 e2 v1 v2 hc hinv hy hxM hyM he1 he12 h1 h2
    have he2 : e2 ≠ 0 := by omega
    have h2e2 : 2 ≤ e2 := by omega
    have hPc : PRECISION ≤ c := le_trans (by decide) hc
    cases fuel1 with
    | zero =>
      unfold CurveCalculator.powLoop at h1
      rw [if_neg (by omega : ¬ e1 = 0)] at h1
      simp at h1
    | succ m =>
      obtain ⟨r2, b2, hr2, hb2, hrest2⟩ := powLoop_succ_ok n y c e2 v2 he2 h2
      have hb2e : b2 = c * c / 1000000000 := by
        rcases sq_result_ok e2 c b2 hb2 with ⟨-, -, h3⟩ | ⟨h3, -⟩
        · exact h3
        · exact absurd (by omega : 1 < e2) h3
      have hc2margin : 1000100000 ≤ c * c / 1000000000 := arith_c2_margin c hc
      by_cases he1one : e1 = 1
      · subst he1one
        obtain ⟨r1, b1, hr1, hb1, hrest1⟩ := powLoop_succ_ok m x c 1 v1 (by omega) h1
        have hr1e : r1 = x * c / PRECISION := by
          rcases bit_result_ok 1 x c r1 hr1 with ⟨-, -, h3⟩ | ⟨h3, -⟩
          · exact h3
          · exact absurd rfl h3
        have hb1e : b1 = c := by
          rcases sq_result_ok 1 c b1 hb1 with ⟨h3, -, -⟩ | ⟨-, h3⟩
          · exact absurd h3 (by decide)
          · exact h3
        have hF : x * c ≤ y * (c * c / 1000000000) :=
          arith_xc_le_yc2 x y c (c * c / 1000000000) (by omega) hinv (div_up_num (c * c))
        have hxc : x * c / PRECISION ≤ y * (c * c / PRECISION) / PRECISION :=
          Nat.div_le_div_right hF
        have hlb := powLoop_lb2 n y c e2 v2 hPc h2e2 hyM h2
        rcases hrest1 with ⟨hcap1, hv1⟩ | ⟨hcap1, hrec1⟩
        · subst hv1
          rcases hcap1 with hcapx | hcapc
          · rw [hr1e] at hcapx
            refine le_trans (le_min (le_refl _) ?_) hlb
            exact le_trans (le_of_lt hcapx) hxc
          · rw [hb1e] at hcapc
            rcases hrest2 with ⟨-, hv2⟩ | ⟨hcap2, -⟩
            · rw [hv2]
            · exfalso
              apply hcap2
              right
              rw [hb2e]
              refine lt_of_lt_of_le hcapc ?_
              rw [Nat.le_div_iff_mul_le (by norm_num : (0:Nat) < 1000000000)]
              exact Nat.mul_le_mul_left c (by omega)
        · have hr1M : r1 ≤ MAX_PRICE := Nat.le_of_not_lt fun hl => hcap1 (Or.inl hl)
          have h120 : (1 : Nat) / 2 = 0 := rfl
          rw [h120, powLoop_zero_e] at hrec1
          injection hrec1 with hv1
          subst hv1
          refine le_trans (le_min hr1M ?_) hlb
          rw [hr1e]
          exact hxc
      · have h2e1 : 2 ≤ e1 := by omega
        obtain ⟨r1, b1, hr1, hb1, hrest1⟩ := powLoop_succ_ok m x c e1 v1 (by omega) h1
        have hb1e : b1 = c * c / 1000000000 := by
          rcases sq_result_ok e1 c b1 hb1 with ⟨-, -, h3⟩ | ⟨h3, -⟩
          · exact h3
          · exact absurd (by omega : 1 < e1) h3
        have hbb : b1 = b2 := by rw [hb1e, hb2e]
        have hyr2 : y ≤ r2 := bit_result_ge e2 y c r2 hPc hr2
        have hinv2 : r1 * 1000000000 + 10000 * r2 ≤ r2 * (c * c / 1000000000) := by
          rcases bit_result_ok e1 x c r1 hr1 with ⟨-, -, hr1e⟩ | ⟨-, hr1e⟩ <;>
            rcases bit_result_ok e2 y c r2 hr2 with ⟨-, -, hr2e⟩ | ⟨-, hr2e⟩ <;>
            rw [hr1e, hr2e]
          · exact arith_inv_11 x y c (x * c / PRECISION) (y * c / PRECISION)
              (c * c / 1000000000) hc hy hinv (div_mul_le_num (x * c))
              (div_up_num (y * c)) (div_low_num (y * c))
              (div_low_num (c * c)) (div_up_num (c * c))
          · exact arith_inv_10 x y c (x * c / PRECISION) (c * c / 1000000000)
              hc hy hinv (div_mul_le_num (x * c)) (div_up_num (c * c))
          · refine arith_inv_01 x y c (y * c / PRECISION) (c * c / 1000000000)
              (by omega) ?_ ?_ hinv
            · rw [Nat.le_div_iff_mul_le (by decide : 0 < PRECISION)]
              exact Nat.mul_le_mul_left y hPc
            · rw [Nat.le_div_iff_mul_le (by norm_num : (0:Nat) < 1000000000)]
              exact Nat.mul_le_mul_left c (by omega)
          · refine le_trans hinv (Nat.mul_le_mul_left y ?_)
            rw [Nat.le_div_iff_mul_le (by norm_num : (0:Nat) < 1000000000)]
            exact Nat.mul_le_mul_left c (by omega)
        by_cases hhalf : e1 / 2 = e2 / 2
        · have heo : e1 % 2 = 0 ∧ e2 % 2 = 1 := by omega
          have hr1x : r1 = x := by
            rcases bit_result_ok e1 x c r1 hr1 with ⟨h3, -, -⟩ | ⟨-, h3⟩
            · omega
            · exact h3
          have hr2y : r2 = y * c / PRECISION := by
            rcases bit_result_ok e2 y c r2 hr2 with ⟨-, -, h3⟩ | ⟨h3, -⟩
            · exact h3
            · omega
          have hler : r1 ≤ r2 := by
            rw [hr1x, hr2y]
            exact arith_same_half x y c (y * c / PRECISION) hinv (div_up_num (y * c))
          rcases hrest2 with ⟨hcap2, hv2⟩ | ⟨hcap2, hrec2⟩
          · subst hv2
            rcases hrest1 with ⟨-, hv1⟩ | ⟨hcap1, hrec1⟩
            · exact le_of_eq hv1
            · exact powLoop_ok_le m r1 b1 (e1 / 2) v1
                (Nat.le_of_not_lt fun hl => hcap1 (Or.inl hl)) hrec1
          · rcases hrest1 with ⟨hcap1, hv1⟩ | ⟨hcap1, hrec1⟩
            · exfalso
              rcases hcap1 with h3 | h3
              · exact hcap2 (Or.inl (lt_of_lt_of_le h3 hler))
              · exact hcap2 (Or.inr (hbb ▸ h3))
            · rw [← hbb, ← hhalf] at hrec2
              exact powLoop_mono_res n m r1 r2 b1 (e1 / 2) v1 v2 hler hrec1 hrec2
        · have hlt2 : e1 / 2 < e2 / 2 := by omega
          have h1e12 : 1 ≤ e1 / 2 := by omega
          have h1e22 : 1 ≤ e2 / 2 := by omega
          rcases hrest2 with ⟨hcap2, hv2⟩ | ⟨hcap2, hrec2⟩
          · subst hv2
            rcases hrest1 with ⟨-, hv1⟩ | ⟨hcap1, hrec1⟩
            · exact le_of_eq hv1
            · exact powLoop_ok_le m r1 b1 (e1 / 2) v1
                (Nat.le_of_not_lt fun hl => hcap1 (Or.inl hl)) hrec1
          · have hr2M : r2 ≤ MAX_PRICE := Nat.le_of_not_lt fun hl => hcap2 (Or.inl hl)
            have hb2M : b2 ≤ MAX_PRICE := Nat.le_of_not_lt fun hl => hcap2 (Or.inr hl)
            rcases hrest1 with ⟨hcap1, hv1⟩ | ⟨hcap1, hrec1⟩
            · subst hv1
              have hcapr1 : MAX_PRICE < r1 := by
                rcases hcap1 with h3 | h3
                · exact h3
                · exact absurd (hbb ▸ h3) (not_lt.mpr hb2M)
              have hPb2 : PRECISION ≤ b2 := sq_result_ge e2 c b2 hPc hb2
              have hlb := powLoop_lb n r2 b2 (e2 / 2) v2 hPb2 h1e22 hr2M hrec2
              refine le_trans (le_min (le_refl _) ?_) hlb
              have hr1le : r1 ≤ r2 * b2 / PRECISION := by
                rw [Nat.le_div_iff_mul_le (by decide : 0 < PRECISION)]
                rw [hb2e]
                calc r1 * PRECISION = r1 * 1000000000 := rfl
                  _ ≤ r2 * (c * c / 1000000000) := by linarith [hinv2]
              exact le_trans (le_of_lt hcapr1) hr1le
            · have hr1M : r1 ≤ MAX_PRICE := Nat.le_of_not_lt fun hl => hcap1 (Or.inl hl)
              rw [hbb] at hrec1
              refine ih m r1 r2 b2 (e1 / 2) (e2 / 2) v1 v2 ?_ ?_ ?_ hr1M hr2M h1e12 hlt2
                hrec1 hrec2
              · rw [hb2e]
                exact hc2margin
              · rw [hb2e]
                exact hinv2
              · exact le_trans hy hyr2

/-- C4: pricing is monotone in supply: for every parameters value with
`growth_rate ≤ 10000` and `max_supply > 0`, and every pair of supply levels
`s1 < s2 ≤ max_supply`, whenever `CurveCalculator::price_at_supply` succeeds
on both supplies (through the truncating fixed-point binary exponentiation and
the `MAX_PRICE` clamp), the price at `s1` is at most the price at `s2`. -/
theorem price_monotone_in_supply (p : CurveParams) (s1 s2 v1 v2 : Nat)
    (hgr : p.growth_rate ≤ 10000) (hms : 0 < p.max_supply)
    (hs12 : s1 < s2) (hs2 : s2 ≤ p.max_supply)
    (h1 : CurveCalculator.price_at_supply s1 p = .ok v1)
    (h2 : CurveCalculator.price_at_supply s2 p = .ok v2) :
    v1 ≤ v2 := by
  have hs2pos : ¬ s2 = 0 := by omega
  unfold CurveCalculator.price_at_supply CurveCalculator.price_at_supply_fixed_point
    at h1 h2
  rw [if_neg hs2pos] at h2
  have hU : U128 = 340282366920938463463374607431768211456 := by norm_num [U128]
  have hmod : (BASIS_POINTS + p.growth_rate) * PRECISION % U128
      = (BASIS_POINTS + p.growth_rate) * PRECISION := by
    apply Nat.mod_eq_of_lt
    rw [hU]
    simp only [BASIS_POINTS, PRECISION]
    omega
  have hc_eq : (BASIS_POINTS + p.growth_rate) * PRECISION % U128 / BASIS_POINTS
      = (10000 + p.growth_rate) * 100000 := by
    rw [hmod]
    simp only [BASIS_POINTS, PRECISION]
    omega
  rcases hm2 : CurveCalculator.fixed_point_power (BASIS_POINTS + p.growth_rate) s2
      BASIS_POINTS with s | m2
  · rw [hm2] at h2
    simp at h2
  · rw [hm2] at h2
    dsimp only at h2
    split_ifs at h2 with hov2
    injection h2 with h2
    have hm2s := hm2
    unfold CurveCalculator.fixed_point_power at hm2s
    rw [if_neg hs2pos, if_neg (by decide : ¬ BASIS_POINTS = 0), hc_eq] at hm2s
    have hcge : PRECISION ≤ (10000 + p.growth_rate) * 100000 := by
      simp only [PRECISION]
      omega
    have hm2P : PRECISION ≤ m2 :=
      powLoop_ok_ge s2 PRECISION ((10000 + p.growth_rate) * 100000) s2 m2 hcge
        (by decide) hm2s
    by_cases hs1z : s1 = 0
    · rw [if_pos hs1z] at h1
      injection h1 with h1
      subst h1
      rw [← h2]
      have hle1 : p.base_price ≤ p.base_price * m2 / PRECISION := by
        rw [Nat.le_div_iff_mul_le (by decide : 0 < PRECISION)]
        exact Nat.mul_le_mul_left _ hm2P
      have hle2 : p.base_price ≤ MAX_PRICE := by
        refine le_trans hle1 ?_
        refine le_trans (Nat.div_le_div_right (Nat.le_pred_of_lt hov2)) ?_
        decide
      exact le_min hle1 hle2
    · rw [if_neg hs1z] at h1
      rcases hm1 : CurveCalculator.fixed_point_power (BASIS_POINTS + p.growth_rate) s1
          BASIS_POINTS with s | m1
      · rw [hm1] at h1
        simp at h1
      · rw [hm1] at h1
        dsimp only at h1
        split_ifs at h1 with hov1
        injection h1 with h1
        have hm1s := hm1
        unfold CurveCalculator.fixed_point_power at hm1s
        rw [if_neg hs1z, if_neg (by decide : ¬ BASIS_POINTS = 0), hc_eq] at hm1s
        have hm12 : m1 ≤ m2 := by
          by_cases hg0 : p.growth_rate = 0
          · rw [hg0] at hm1s hm2s
            have hceq0 : (10000 + 0) * 100000 = PRECISION := by decide
            rw [hceq0] at hm1s hm2s
            rw [powLoop_const_P s1 s1 (le_refl _)] at hm1s
            rw [powLoop_const_P s2 s2 (le_refl _)] at hm2s
            injection hm1s with hm1e
            injection hm2s with hm2e
            rw [← hm1e, ← hm2e]
          · have hg1 : 1 ≤ p.growth_rate := by omega
            refine powLoop_mono_exp s2 s1 PRECISION PRECISION
              ((10000 + p.growth_rate) * 100000) s1 s2 m1 m2 (by omega) ?_ (by decide)
              (by decide) (by decide) (by omega) hs12 hm1s hm2s
            simp only [PRECISION]
            omega
        rw [← h1, ← h2]
        exact min_le_min (Nat.div_le_div_right (Nat.mul_le_mul_left _ hm12)) (le_refl _)

/-- Witness for C4 at the default parameters and supplies 1 < 2. -/
theorem price_monotone_in_supply_witness :
    CurveCalculator.price_at_supply 1 CurveParams.default = .ok 1150000 ∧
    CurveCalculator.price_at_supply 2 CurveParams.default = .ok 1322500 ∧
    (1150000 : Nat) ≤ 1322500 :=
  ⟨by decide, by decide,
   price_monotone_in_supply CurveParams.default 1 2 1150000 1322500 (by decide)
     (by decide) (by decide) (by decide) (by decide) (by decide)⟩

end BondingCurveAlkanes
